import Mathlib

/-!
# TensorFusionWorkload controller

A shallow embedding of `internal/controller/tensorfusionworkload_controller.go`.

* Kubernetes objects are records holding the fields the controller reads or writes.
* A Go `map[string]string` is an association list read through `List.lookup`; a map
  that may be nil is an `Option`.
* Every call that leaves the controller (allocator, port allocator, API client, event
  recorder, metrics) is appended to a trace of `Call`s, in program order.
* What the outside world answers is given by an `Env`: the answer to a call made inside a
  loop may depend on the iteration in which it is made and on the arguments of the call.
* Go errors are strings; `fmt.Errorf("ctx: %w", err)` is string concatenation.
* `Create`, `Update` and the status write leave the object in memory as it was sent; log
  lines are not part of the trace.
* A Go string is a `String`; the only separator the controller splits and joins on is the
  ASCII comma, so splitting by character and splitting by byte agree.
* `int32` arithmetic wraps (`toInt32`); an `int` counter that is bounded by the length of a
  slice does not.
-/

namespace TensorFusion

/-! ## Data model -/

/-- Go `map[string]string` that has been allocated. -/
abbrev StringMap := List (String × String)

/-- Instants of `metav1.Time`. -/
abbrev Time := Int

/-- The index expression `m[k]`: the zero value when the map is nil or the key is absent. -/
def mapIndex (m : Option StringMap) (k : String) : String :=
  match m with
  | none => ""
  | some kvs => (kvs.lookup k).getD ""

/-- The comma-ok form `v, ok := m[k]`; `none` stands for `ok = false`. -/
def mapLookup (m : Option StringMap) (k : String) : Option String :=
  match m with
  | none => none
  | some kvs => kvs.lookup k

/-- The assignment `m[k] = v` on an allocated map. -/
def mapAssign (kvs : StringMap) (k v : String) : StringMap :=
  (k, v) :: kvs.filter (fun kv => kv.1 != k)

/-- Semantic equality of two maps: nil and empty are the same, entries are compared by key. -/
def mapDeepEqual (a b : Option StringMap) : Bool :=
  ((a.getD []).map Prod.fst ++ (b.getD []).map Prod.fst).all
    (fun k => (a.getD []).lookup k == (b.getD []).lookup k)

/-- Conversion `int32(x)`: two's complement wrap-around to 32 bits. -/
def toInt32 (x : Int) : Int := (x + 2 ^ 31) % 2 ^ 32 - 2 ^ 31

/-- Record `tfv1.Resource`; the controller only passes it on. -/
structure Resource where
  Tflops : Nat
  Vram : Nat
deriving DecidableEq, Repr

/-- Record `tfv1.Resources`. -/
structure Resources where
  Requests : Resource
  Limits : Resource
deriving DecidableEq, Repr

/-- Record `tfv1.NameNamespace`. -/
structure NameNamespace where
  Name : String
  Namespace : String
deriving DecidableEq, Repr

/-- Record `types.NamespacedName`. -/
structure NamespacedName where
  Namespace : String
  Name : String
deriving DecidableEq, Repr

/-- Record `tfv1.GPUStatus`, the part the controller reads. -/
structure GPUStatus where
  NodeSelector : Option StringMap
deriving DecidableEq, Repr

/-- Record `tfv1.GPU`. -/
structure GPU where
  Name : String
  Namespace : String
  Labels : Option StringMap
  Status : GPUStatus
deriving DecidableEq, Repr

/-- Record `metav1.OwnerReference`. -/
structure OwnerReference where
  APIVersion : String
  Kind : String
  Name : String
  UID : String
  Controller : Option Bool
  BlockOwnerDeletion : Option Bool
deriving DecidableEq, Repr

/-- Record `corev1.PodCondition`. -/
structure PodCondition where
  Type_ : String
  Status : String
deriving DecidableEq, Repr

/-- Record `corev1.PodSpec`, the part the controller reads. -/
structure PodSpec where
  NodeName : String
  NodeSelector : Option StringMap
deriving DecidableEq, Repr

/-- Record `corev1.PodStatus`, the part the controller reads. -/
structure PodStatus where
  Phase : String
  Conditions : List PodCondition
  PodIP : String
deriving DecidableEq, Repr

/-- Record `corev1.Pod`. -/
structure Pod where
  Name : String
  Namespace : String
  Labels : Option StringMap
  Annotations : Option StringMap
  Finalizers : List String
  OwnerReferences : List OwnerReference
  CreationTimestamp : Time
  DeletionTimestamp : Option Time
  ResourceVersion : String
  Spec : PodSpec
  Status : PodStatus
deriving DecidableEq, Repr

/-- Record `tfv1.WorkerStatus`. -/
structure WorkerStatus where
  WorkerPhase : String
  WorkerName : String
  WorkerIp : String
  WorkerPort : Int
  NodeSelector : Option StringMap
  ResourceVersion : String
deriving DecidableEq, Repr

/-- Record `metav1.Condition`. -/
structure Condition where
  Type_ : String
  Status : String
  ObservedGeneration : Int
  LastTransitionTime : Time
  Reason : String
  Message : String
deriving DecidableEq, Repr

/-- Record `tfv1.WorkloadProfileSpec`, the fields the controller reads. `Replicas` is a
`*int32`: `none` is the nil pointer. -/
structure WorkloadSpec where
  PoolName : String
  Replicas : Option Int
  Resources : Resources
  GPUCount : Nat
  GPUModel : String
  NodeAffinity : String
deriving DecidableEq, Repr

/-- Record `tfv1.TensorFusionWorkloadStatus`. -/
structure WorkloadStatus where
  Replicas : Int
  ReadyReplicas : Int
  Phase : String
  Conditions : List Condition
  PodTemplateHash : String
  WorkerStatuses : List WorkerStatus
deriving DecidableEq, Repr

/-- Record `tfv1.TensorFusionWorkload`. -/
structure Workload where
  Name : String
  Namespace : String
  UID : String
  Spec : WorkloadSpec
  Status : WorkloadStatus
deriving DecidableEq, Repr

/-- Record `gpuallocator.AllocRequest`. -/
structure AllocRequest where
  PoolName : String
  WorkloadNameNamespace : NameNamespace
  Request : Resource
  Count : Nat
  GPUModel : String
  NodeAffinity : String
deriving DecidableEq, Repr

/-- Record `ctrl.Result`. -/
structure Result where
  Requeue : Bool
  RequeueAfter : Int
deriving DecidableEq, Repr

/-- The zero `ctrl.Result`. -/
def Result.zero : Result := ⟨false, 0⟩

/-- Method `Result.IsZero`. -/
def Result.IsZero (r : Result) : Bool := decide (r = Result.zero)

/-! ## Constants -/

/-- Modelled from the spec: `constants.WorkloadKey` is not among the sources; the spec's
vocabulary names the label `workload`. -/
def WorkloadKey : String := "workload"

/-- Modelled from the spec: `constants.LabelKeyPodTemplateHash` is not among the sources; the
spec's vocabulary names the label `podTemplateHash`. -/
def LabelKeyPodTemplateHash : String := "podTemplateHash"

/-- Modelled from the spec: `constants.GpuKey` is not among the sources; the spec's vocabulary
names the annotation `gpus`. -/
def GpuKey : String := "gpus"

/-- Modelled from the spec: `constants.GpuReleasedAnnotation` is not among the sources; the
spec's vocabulary names the annotation `gpu-released`. -/
def GpuReleasedAnnotation : String := "gpu-released"

/-- Modelled from the spec: `constants.ConditionStatusTypeReady` is not among the sources; the
spec names the condition `Ready`. -/
def ConditionStatusTypeReady : String := "Ready"

/-- Pod phases of `corev1`. -/
def PodPending : String := "Pending"

/-- Pod phase `corev1.PodRunning`. -/
def PodRunning : String := "Running"

/-- Pod phase `corev1.PodFailed`. -/
def PodFailed : String := "Failed"

/-- Condition type `corev1.PodReady`. -/
def PodReady : String := "Ready"

/-- Event type `corev1.EventTypeWarning`. -/
def EventTypeWarning : String := "Warning"

/-- Condition status `metav1.ConditionTrue`. -/
def ConditionTrue : String := "True"

/-- Condition status `metav1.ConditionFalse`. -/
def ConditionFalse : String := "False"

/-- Modelled from the spec: the `tfv1` phase constants are not among the sources; the spec
gives `Phase ∈ {Pending, Running, Failed}` for workers. -/
def WorkerPending : String := "Pending"

/-- Modelled from the spec: worker phase `Running`. -/
def WorkerRunning : String := "Running"

/-- Modelled from the spec: worker phase `Failed`. -/
def WorkerFailed : String := "Failed"

/-- Modelled from the spec: workload phase `Pending`. -/
def TensorFusionWorkloadPhasePending : String := "Pending"

/-- Modelled from the spec: workload phase `Running`. -/
def TensorFusionWorkloadPhaseRunning : String := "Running"

/-- Modelled from the spec: workload phase `Failed`. -/
def TensorFusionWorkloadPhaseFailed : String := "Failed"

/-! ## The outside world -/

/-- Calls that leave the controller, with their arguments; the API client calls also record
the error they returned (`none` is a nil error). -/
inductive Call where
  | Alloc (req : AllocRequest)
  | Dealloc (workload : NameNamespace) (request : Resource) (gpus : List NamespacedName)
  | AssignHostPort (nodeName : String)
  | ReleaseHostPort (nodeName podName : String) (port : Int) (immediate : Bool)
  | Create (pod : Pod) (err : Option String)
  | Update (pod : Pod) (err : Option String)
  | Delete (pod : Pod) (err : Option String)
  | StatusUpdate (workload : Workload) (err : Option String)
  | Eventf (eventtype reason message : String)
  | SetSchedulerMetrics (poolName : String) (success : Bool)
deriving DecidableEq, Repr

/-- Answers of the collaborators and the values of the constants whose value neither the
sources nor the spec give. The `Nat` argument of an answer is the iteration of the enclosing
loop in which the call is made (`0` outside a loop). -/
structure Env where
  /-- Method `gpuallocator.GpuAllocator.Alloc`. -/
  Alloc : Nat → AllocRequest → Except String (List GPU)
  /-- Method `portallocator.PortAllocator.AssignHostPort`. -/
  AssignHostPort : Nat → String → Except String Int
  /-- Method `worker.WorkerGenerator.GenerateWorkerPod`. -/
  GenerateWorkerPod : Nat → List GPU → String → String → Int → Resource → Resource → String →
    Except String (Pod × String)
  /-- Scheme lookup inside `ctrl.SetControllerReference`: API version and kind of the
  workload. -/
  GVKForObject : Workload → Except String (String × String)
  /-- Method `client.Client.Create` on a pod. -/
  Create : Nat → Pod → Option String
  /-- Method `client.Client.Update` on a pod. -/
  Update : Pod → Option String
  /-- Method `client.Client.Delete` on a pod. -/
  Delete : Nat → Pod → Option String
  /-- Method `client.StatusWriter.Update` on the workload. -/
  StatusUpdate : Workload → Option String
  /-- Method `worker.WorkerGenerator.WorkerPort`. -/
  WorkerPort : Pod → Except String Int
  /-- Function `utils.IsPodConditionTrue`. -/
  IsPodConditionTrue : List PodCondition → String → Bool
  /-- Function `shortuuid.New`. -/
  shortuuidNew : String
  /-- Function `sort.Slice` on a pod slice, given the `less` of the call. -/
  sortSlice : (Pod → Pod → Bool) → List Pod → List Pod
  /-- Constant `constants.PendingRequeueDuration`. -/
  PendingRequeueDuration : Int
  /-- Constant `constants.Finalizer`. -/
  Finalizer : String
  /-- Constant `constants.KubernetesHostNameLabel`. -/
  KubernetesHostNameLabel : String

/-- How a Go function ends: it returns, or it panics. -/
inductive Outcome (α : Type) where
  | ok (val : α)
  | panic (why : String)
deriving DecidableEq, Repr

/-! ## handlePodGPUCleanup -/

/-- The `lo.Map` of `handlePodGPUCleanup`: a GPU name becomes a `types.NamespacedName`. -/
def gpuNamesToKeys (gpuNames : List String) : List NamespacedName :=
  gpuNames.map (fun gpuName => { Namespace := "", Name := gpuName })

/-- One field of `strings.Split`, scanning: `cur` holds the bytes of the field being read, in
reverse. -/
def splitAux (sep : Char) : List Char → List Char → List (List Char)
  | [], cur => [cur.reverse]
  | c :: cs, cur =>
    if c = sep then cur.reverse :: splitAux sep cs [] else splitAux sep cs (c :: cur)

/-- Function `strings.Split(s, sep)` for a separator of one byte: the fields between the
occurrences of `sep`; one empty field for the empty string. -/
def stringsSplit (s : String) (sep : Char) : List String :=
  (splitAux sep s.data []).map String.mk

/-- Function `strings.Join(elems, sep)` for a separator of one byte. -/
def stringsJoin : List String → Char → String
  | [], _ => ""
  | [a], _ => a
  | a :: b :: rest, sep => a ++ String.singleton sep ++ stringsJoin (b :: rest) sep

/-- The assignment `pod.Annotations[constants.GpuReleasedAnnotation] = shortuuid.New()` on a pod
whose annotation map is `annotations`. -/
def stampGpuReleased (pod : Pod) (annotations : StringMap) (uuid : String) : Pod :=
  { pod with Annotations := some (mapAssign annotations GpuReleasedAnnotation uuid) }

/-- Function `handlePodGPUCleanup`: the returned pair `(bool, error)` and the calls made. The
write to a nil annotation map panics. -/
def handlePodGPUCleanup (env : Env) (pod : Pod) (workload : Workload) :
    Outcome (Bool × Option String) × List Call :=
  match pod.Annotations with
  | none => (.panic "assignment to entry in nil map", [])
  | some annotations =>
    let pod := stampGpuReleased pod annotations env.shortuuidNew
    match env.Update pod with
    | some err => (.ok (false, some err), [Call.Update pod (some err)])
    | none =>
      match mapLookup pod.Annotations GpuKey with
      | none => (.ok (true, none), [Call.Update pod none])
      | some gpuNamesStr =>
        let gpuNames := stringsSplit gpuNamesStr ','
        let gpus := gpuNamesToKeys gpuNames
        (.ok (true, none),
          [Call.Update pod none,
           Call.Dealloc { Name := workload.Name, Namespace := workload.Namespace }
             workload.Spec.Resources.Requests gpus])

/-! ## tryStartWorker -/

/-- Function `schema.ParseGroupVersion`, the group: empty without a slash, the part before it
with one slash, an error (`none`) with more. -/
def parseGroup (apiVersion : String) : Option String :=
  match stringsSplit apiVersion '/' with
  | [_] => some ""
  | [g, _] => some g
  | _ => none

/-- Function `referSameObject` of `controllerutil`: same group, kind and name. -/
def referSameObject (a b : OwnerReference) : Bool :=
  match parseGroup a.APIVersion, parseGroup b.APIVersion with
  | some ga, some gb => ga == gb && a.Kind == b.Kind && a.Name == b.Name
  | _, _ => false

/-- Function `upsertOwnerRef` of `controllerutil`: replace the reference to the same object, or
append. -/
def upsertOwnerRef (ref : OwnerReference) : List OwnerReference → List OwnerReference
  | [] => [ref]
  | r :: rs => if referSameObject r ref then ref :: rs else r :: upsertOwnerRef ref rs

/-- Function `ctrl.SetControllerReference(workload, pod, scheme)` of controller-runtime: the
owner is validated, its kind is looked up in the scheme, a pod that another controller owns
is refused, and the controller reference is upserted. -/
def SetControllerReference (env : Env) (workload : Workload) (pod : Pod) : Except String Pod :=
  if workload.Namespace ≠ "" ∧ pod.Namespace = "" then
    .error "cluster-scoped resource must not have a namespace-scoped owner"
  else if workload.Namespace ≠ "" ∧ workload.Namespace ≠ pod.Namespace then
    .error "cross-namespace owner references are disallowed"
  else
    match env.GVKForObject workload with
    | .error err => .error err
    | .ok (apiVersion, kind) =>
      let ref : OwnerReference :=
        { APIVersion := apiVersion, Kind := kind, Name := workload.Name, UID := workload.UID,
          Controller := some true, BlockOwnerDeletion := some true }
      match pod.OwnerReferences.find? (fun r => r.Controller == some true) with
      | some existing =>
        if referSameObject existing ref then
          .ok { pod with OwnerReferences := upsertOwnerRef ref pod.OwnerReferences }
        else .error "Object is already owned by another controller"
      | none => .ok { pod with OwnerReferences := upsertOwnerRef ref pod.OwnerReferences }

/-- The middle of `tryStartWorker`, from `if pod.Labels == nil` to the append of the finalizer:
nil maps are allocated, the two labels and the gpus annotation are written, the finalizer is
appended. `hash` is the hash `GenerateWorkerPod` returned. -/
def imprintPod (env : Env) (gpus : List GPU) (workload : Workload) (pod : Pod) (hash : String) :
    Pod :=
  let labels := pod.Labels.getD []
  let annotations := pod.Annotations.getD []
  let gpuNames := gpus.map (fun gpu => gpu.Name)
  let labels := mapAssign labels WorkloadKey workload.Name
  let labels := mapAssign labels LabelKeyPodTemplateHash hash
  let annotations := mapAssign annotations GpuKey (stringsJoin gpuNames ',')
  { pod with
    Labels := some labels
    Annotations := some annotations
    Finalizers := pod.Finalizers ++ [env.Finalizer] }

/-- Function `tryStartWorker`, called in iteration `it` of the scale-up loop: the returned
`(*corev1.Pod, error)` and the calls made. The pod returned is the pod handed to `Create`. -/
def tryStartWorker (env : Env) (it : Nat) (gpus : List GPU) (workload : Workload)
    (hash : String) : Except String Pod × List Call :=
  match gpus with
  | [] => (.error "no gpus or no labels, can not assign host port for worker", [])
  | gpu0 :: _ =>
    if gpu0.Labels.isNone then
      (.error "no gpus or no labels, can not assign host port for worker", [])
    else
      let nodeName := mapIndex gpu0.Status.NodeSelector env.KubernetesHostNameLabel
      match env.AssignHostPort it nodeName with
      | .error err => (.error ("get host port " ++ err), [Call.AssignHostPort nodeName])
      | .ok port =>
        match env.GenerateWorkerPod it gpus workload.Name workload.Namespace port
            workload.Spec.Resources.Requests workload.Spec.Resources.Limits hash with
        | .error err => (.error ("generate worker pod " ++ err), [Call.AssignHostPort nodeName])
        | .ok (pod, hash) =>
          match SetControllerReference env workload (imprintPod env gpus workload pod hash) with
          | .error err => (.error ("set owner reference " ++ err), [Call.AssignHostPort nodeName])
          | .ok pod =>
            match env.Create it pod with
            | some err =>
              (.error ("create pod " ++ err),
                [Call.AssignHostPort nodeName, Call.Create pod (some err)])
            | none => (.ok pod, [Call.AssignHostPort nodeName, Call.Create pod none])

/-! ## scaleDownWorkers, scaleUpWorkers -/

/-- Function `deletePod`. -/
def deletePod (env : Env) (it : Nat) (pod : Pod) : Option String × List Call :=
  match env.Delete it pod with
  | some err => (some ("delete worker pod: " ++ err), [Call.Delete pod (some err)])
  | none => (none, [Call.Delete pod none])

/-- The loop of `scaleDownWorkers` from index `it` on. -/
def scaleDownLoop (env : Env) : List Pod → Nat → Option String × List Call
  | [], _ => (none, [])
  | podToDelete :: rest, it =>
    match deletePod env it podToDelete with
    | (some err, tr) => (some err, tr)
    | (none, tr) =>
      let r := scaleDownLoop env rest (it + 1)
      (r.1, tr ++ r.2)

/-- Function `scaleDownWorkers`. -/
def scaleDownWorkers (env : Env) (_workload : Workload) (pods : List Pod) :
    Option String × List Call :=
  scaleDownLoop env pods 0

/-- Function `client.ObjectKeyFromObject` on a GPU. -/
def ObjectKeyFromObject (gpu : GPU) : NamespacedName :=
  { Namespace := gpu.Namespace, Name := gpu.Name }

/-- The request `scaleUpWorkers` builds for `Alloc`. -/
def allocRequest (workload : Workload) : AllocRequest :=
  { PoolName := workload.Spec.PoolName
    WorkloadNameNamespace := { Namespace := workload.Namespace, Name := workload.Name }
    Request := workload.Spec.Resources.Requests
    Count := workload.Spec.GPUCount
    GPUModel := workload.Spec.GPUModel
    NodeAffinity := workload.Spec.NodeAffinity }

/-- The loop of `scaleUpWorkers`: `remaining` iterations are left, the next one is `it`. -/
def scaleUpLoop (env : Env) (workload : Workload) (hash : String) :
    Nat → Nat → (Result × Option String) × List Call
  | 0, _ => ((Result.zero, none), [])
  | remaining + 1, it =>
    match env.Alloc it (allocRequest workload) with
    | .error err =>
      (({ Requeue := false, RequeueAfter := env.PendingRequeueDuration }, none),
        [Call.Alloc (allocRequest workload),
         Call.SetSchedulerMetrics workload.Spec.PoolName false,
         Call.Eventf EventTypeWarning "ScheduleGPUFailed" ("Failed to schedule GPU: " ++ err)])
    | .ok gpus =>
      match tryStartWorker env it gpus workload hash with
      | (.error err, tr) =>
        ((Result.zero, some ("create worker pod: " ++ err)),
          [Call.Alloc (allocRequest workload),
           Call.SetSchedulerMetrics workload.Spec.PoolName true] ++ tr ++
          [Call.Dealloc { Namespace := workload.Namespace, Name := workload.Name }
             workload.Spec.Resources.Requests (gpus.map ObjectKeyFromObject)])
      | (.ok _, tr) =>
        let r := scaleUpLoop env workload hash remaining (it + 1)
        (r.1,
          [Call.Alloc (allocRequest workload),
           Call.SetSchedulerMetrics workload.Spec.PoolName true] ++ tr ++ r.2)

/-- Function `scaleUpWorkers`; `for range count` runs `count` times, not at all when `count`
is not positive. -/
def scaleUpWorkers (env : Env) (workload : Workload) (count : Int) (hash : String) :
    (Result × Option String) × List Call :=
  scaleUpLoop env workload hash count.toNat 0

/-! ## reconcileScaling -/

/-- The `less` that `reconcileScaling` gives to `sort.Slice`: creation time strictly before. -/
def creationBefore (a b : Pod) : Bool := decide (a.CreationTimestamp < b.CreationTimestamp)

/-- The pods `reconcileScaling` collects as outdated: the label differs from the hash. -/
def outdatedPods (pods : List Pod) (podTemplateHash : String) : List Pod :=
  pods.filter (fun pod => mapIndex pod.Labels LabelKeyPodTemplateHash != podTemplateHash)

/-- Function `reconcileScaling` from `// Scale up if needed` on; `workload.Status.Replicas` is
already the current count. The slice expression `podList.Items[:podsToRemove]` panics when
the bound is negative or beyond the slice (taking the capacity of the slice to be its
length). -/
def reconcileScale (env : Env) (workload : Workload) (podList : List Pod)
    (podTemplateHash : String) (desiredReplicas currentReplicas : Int) :
    Outcome (Result × Option String) × Workload × List Call :=
  if currentReplicas < desiredReplicas then
    let podsToAdd := toInt32 (desiredReplicas - currentReplicas)
    match scaleUpWorkers env workload podsToAdd podTemplateHash with
    | ((_, some err), tr) => (.ok (Result.zero, some ("scale up workers: " ++ err)), workload, tr)
    | ((result, none), tr) =>
      if !result.IsZero then (.ok (result, none), workload, tr)
      else (.ok (Result.zero, none), workload, tr)
  else if currentReplicas > desiredReplicas then
    let sorted := env.sortSlice creationBefore podList
    let podsToRemove := toInt32 (currentReplicas - desiredReplicas)
    if podsToRemove < 0 ∨ (sorted.length : Int) < podsToRemove then
      (.panic "slice bounds out of range", workload, [])
    else
      match scaleDownWorkers env workload (sorted.take podsToRemove.toNat) with
      | (some err, tr) => (.ok (Result.zero, some err), workload, tr)
      | (none, tr) => (.ok (Result.zero, none), workload, tr)
  else (.ok (Result.zero, none), workload, [])

/-- Function `reconcileScaling`: the returned `(ctrl.Result, error)`, the workload as the
function leaves it, and the calls made. -/
def reconcileScaling (env : Env) (workload : Workload) (podList : List Pod)
    (podTemplateHash : String) : Outcome (Result × Option String) × Workload × List Call :=
  if ¬ (outdatedPods podList podTemplateHash).isEmpty then
    match scaleDownWorkers env workload (outdatedPods podList podTemplateHash) with
    | (some err, tr) => (.ok (Result.zero, some err), workload, tr)
    | (none, tr) => (.ok ({ Requeue := true, RequeueAfter := 0 }, none), workload, tr)
  else
    let desiredReplicas : Int := workload.Spec.Replicas.getD 1
    let currentReplicas : Int := toInt32 podList.length
    if workload.Status.Replicas ≠ currentReplicas then
      let workload := { workload with
        Status := { workload.Status with Replicas := currentReplicas } }
      match env.StatusUpdate workload with
      | some err =>
        (.ok (Result.zero, some ("update status: " ++ err)), workload,
          [Call.StatusUpdate workload (some err)])
      | none =>
        let r := reconcileScale env workload podList podTemplateHash desiredReplicas
          currentReplicas
        (r.1, r.2.1, Call.StatusUpdate workload none :: r.2.2)
    else reconcileScale env workload podList podTemplateHash desiredReplicas currentReplicas

/-! ## updateStatus -/

/-- The locals of the pod loop of `updateStatus`. -/
structure Aggregate where
  readyReplicas : Int
  failedWorkers : Int
  workerStatuses : List WorkerStatus
deriving DecidableEq, Repr

/-- The `switch pod.Status.Phase` of `updateStatus`: the worker phase, and the counters after
it. `readyReplicas` is an `int32`. -/
def workerPhaseOf (env : Env) (pod : Pod) (readyReplicas failedWorkers : Int) :
    String × Int × Int :=
  if pod.Status.Phase = PodPending then (WorkerPending, readyReplicas, failedWorkers)
  else if pod.Status.Phase = PodRunning then
    if env.IsPodConditionTrue pod.Status.Conditions PodReady then
      (WorkerRunning, toInt32 (readyReplicas + 1), failedWorkers)
    else (WorkerPending, readyReplicas, failedWorkers)
  else if pod.Status.Phase = PodFailed then (WorkerFailed, readyReplicas, failedWorkers + 1)
  else (WorkerPending, readyReplicas, failedWorkers)

/-- One iteration of the pod loop of `updateStatus`. -/
def aggregateStep (env : Env) (acc : Aggregate) (pod : Pod) : Aggregate :=
  if pod.DeletionTimestamp.isSome then acc
  else
    let sw := workerPhaseOf env pod acc.readyReplicas acc.failedWorkers
    match env.WorkerPort pod with
    | .error _ =>
      { readyReplicas := sw.2.1, failedWorkers := sw.2.2, workerStatuses := acc.workerStatuses }
    | .ok port =>
      { readyReplicas := sw.2.1
        failedWorkers := sw.2.2
        workerStatuses := acc.workerStatuses ++
          [{ WorkerPhase := sw.1
             WorkerName := pod.Name
             WorkerIp := pod.Status.PodIP
             WorkerPort := port
             NodeSelector := pod.Spec.NodeSelector
             ResourceVersion := pod.ResourceVersion }] }

/-- The pod loop of `updateStatus`. -/
def aggregate (env : Env) (pods : List Pod) : Aggregate :=
  pods.foldl (aggregateStep env) { readyReplicas := 0, failedWorkers := 0, workerStatuses := [] }

/-- Function `equality.Semantic.DeepEqual` on two `WorkerStatus` values. -/
def workerStatusDeepEqual (a b : WorkerStatus) : Bool :=
  a.WorkerPhase == b.WorkerPhase && a.WorkerName == b.WorkerName && a.WorkerIp == b.WorkerIp &&
    a.WorkerPort == b.WorkerPort && mapDeepEqual a.NodeSelector b.NodeSelector &&
    a.ResourceVersion == b.ResourceVersion

/-- Function `equality.Semantic.DeepEqual` on two `[]WorkerStatus`: nil and empty are equal. -/
def workerStatusesDeepEqual : List WorkerStatus → List WorkerStatus → Bool
  | [], [] => true
  | a :: as, b :: bs => workerStatusDeepEqual a b && workerStatusesDeepEqual as bs
  | _, _ => false

/-- Function `equality.Semantic.DeepEqual` on two `[]metav1.Condition`: field by field, times
by instant. -/
def conditionsDeepEqual (a b : List Condition) : Bool := decide (a = b)

/-- The tail of `updateStatus`, from `conditions = append(conditions, readyCondition)` on. -/
def writeStatus (env : Env) (workload : Workload) (agg : Aggregate) (phase : String)
    (readyCondition : Condition) (events : List Call) :
    Outcome (Option String) × Workload × List Call :=
  let conditions := [readyCondition]
  let statusChanged := workload.Status.ReadyReplicas != agg.readyReplicas ||
    !workerStatusesDeepEqual workload.Status.WorkerStatuses agg.workerStatuses ||
    workload.Status.Phase != phase ||
    !conditionsDeepEqual workload.Status.Conditions conditions
  if statusChanged then
    let workload := { workload with
      Status := { workload.Status with
        Phase := phase
        Conditions := conditions
        ReadyReplicas := agg.readyReplicas
        WorkerStatuses := agg.workerStatuses } }
    match env.StatusUpdate workload with
    | some err =>
      (.ok (some ("update workload status: " ++ err)), workload,
        events ++ [Call.StatusUpdate workload (some err)])
    | none => (.ok none, workload, events ++ [Call.StatusUpdate workload none])
  else (.ok none, workload, events)

/-- Function `updateStatus`, with the reading of `metav1.Now()` as `now`: the returned error,
the workload as the function leaves it, and the calls made. Dereferencing a nil
`Spec.Replicas` panics. -/
def updateStatus (env : Env) (now : Time) (workload : Workload) (pods : List Pod) :
    Outcome (Option String) × Workload × List Call :=
  let agg := aggregate env pods
  let readyCondition : Condition :=
    { Type_ := ConditionStatusTypeReady, Status := "", ObservedGeneration := 0,
      LastTransitionTime := now, Reason := "", Message := "" }
  if workload.Spec.Replicas = some agg.readyReplicas then
    writeStatus env workload agg TensorFusionWorkloadPhaseRunning
      { readyCondition with
        Status := ConditionTrue, Reason := "WorkloadReady", Message := "All workers are running" }
      []
  else if agg.failedWorkers > 0 then
    writeStatus env workload agg TensorFusionWorkloadPhaseFailed
      { readyCondition with
        Status := ConditionFalse
        Reason := "WorkerFailed"
        Message := "Failed workers: " ++ toString agg.failedWorkers }
      [Call.Eventf EventTypeWarning "WorkerFailed"
        ("Failed workers: " ++ toString agg.failedWorkers)]
  else
    match workload.Spec.Replicas with
    | none => (.panic "invalid memory address or nil pointer dereference", workload, [])
    | some replicas =>
      writeStatus env workload agg TensorFusionWorkloadPhasePending
        { readyCondition with
          Status := ConditionFalse
          Reason := "WaitingForWorkers"
          Message := "Ready replicas: " ++ toString agg.readyReplicas ++ "/" ++
            toString replicas }
        []

/-! ## Reading a trace -/

/-- Number of `Dealloc` calls in a trace. -/
def countDealloc (tr : List Call) : Nat :=
  tr.countP (fun c => match c with | .Dealloc _ _ _ => true | _ => false)

/-- Number of `Alloc` calls in a trace. -/
def countAlloc (tr : List Call) : Nat :=
  tr.countP (fun c => match c with | .Alloc _ => true | _ => false)

/-- Number of `ReleaseHostPort` calls in a trace. -/
def countReleaseHostPort (tr : List Call) : Nat :=
  tr.countP (fun c => match c with | .ReleaseHostPort _ _ _ _ => true | _ => false)

/-- Number of `Create` calls in a trace, failed ones included. -/
def countCreate (tr : List Call) : Nat :=
  tr.countP (fun c => match c with | .Create _ _ => true | _ => false)

/-- The pods created in a trace: the arguments of the `Create` calls that returned no error. -/
def createdPods (tr : List Call) : List Pod :=
  tr.filterMap (fun c => match c with | .Create pod none => some pod | _ => none)

/-- The pods deleted in a trace: the arguments of the `Delete` calls that returned no error. -/
def deletedPods (tr : List Call) : List Pod :=
  tr.filterMap (fun c => match c with | .Delete pod none => some pod | _ => none)

/-- Number of `Delete` calls in a trace, failed ones included. -/
def countDelete (tr : List Call) : Nat :=
  tr.countP (fun c => match c with | .Delete _ _ => true | _ => false)

/-- Number of status writes in a trace. -/
def countStatusUpdate (tr : List Call) : Nat :=
  tr.countP (fun c => match c with | .StatusUpdate _ _ => true | _ => false)

/-- Iteration `it` of the scale-up loop allocates and launches successfully. -/
def iterationSucceeds (env : Env) (workload : Workload) (hash : String) (it : Nat) : Bool :=
  match env.Alloc it (allocRequest workload) with
  | .error _ => false
  | .ok gpus =>
    match (tryStartWorker env it gpus workload hash).1 with
    | .ok _ => true
    | .error _ => false

/-- Number of warning events with reason `ScheduleGPUFailed` in a trace. -/
def countScheduleGPUFailed (tr : List Call) : Nat :=
  tr.countP (fun c => match c with
    | .Eventf eventtype reason _ => eventtype == EventTypeWarning && reason == "ScheduleGPUFailed"
    | _ => false)

/-! ## Sample inputs -/

/-- A sorting function that meets the contract of `sort.Slice`: insertion sort. -/
def sampleSortSlice (less : Pod → Pod → Bool) (pods : List Pod) : List Pod :=
  pods.insertionSort (fun a b => less b a = false)

/-- A GPU named `gpu-a` on node `node-1`. -/
def sampleGpuA : GPU :=
  { Name := "gpu-a", Namespace := "", Labels := some [("pool", "p")],
    Status := { NodeSelector := some [("kubernetes.io/hostname", "node-1")] } }

/-- A GPU named `gpu-b` on node `node-1`. -/
def sampleGpuB : GPU :=
  { Name := "gpu-b", Namespace := "", Labels := some [("pool", "p")],
    Status := { NodeSelector := some [("kubernetes.io/hostname", "node-1")] } }

/-- A pod as a template generator may render it: no labels, no annotations yet. -/
def sampleRenderedPod (name ns : String) : Pod :=
  { Name := name, Namespace := ns, Labels := none, Annotations := none, Finalizers := [],
    OwnerReferences := [], CreationTimestamp := 0, DeletionTimestamp := none,
    ResourceVersion := "", Spec := { NodeName := "", NodeSelector := none },
    Status := { Phase := "", Conditions := [], PodIP := "" } }

/-- A world in which every call succeeds. -/
def sampleEnv : Env :=
  { Alloc := fun _ _ => .ok [sampleGpuA]
    AssignHostPort := fun _ _ => .ok 40000
    GenerateWorkerPod := fun _ _ name ns _ _ _ hash => .ok (sampleRenderedPod name ns, hash)
    GVKForObject := fun _ => .ok ("tensor-fusion.ai/v1", "TensorFusionWorkload")
    Create := fun _ _ => none
    Update := fun _ => none
    Delete := fun _ _ => none
    StatusUpdate := fun _ => none
    WorkerPort := fun _ => .ok 8000
    IsPodConditionTrue := fun conditions conditionType =>
      conditions.any (fun c => c.Type_ == conditionType && c.Status == "True")
    shortuuidNew := "u1"
    sortSlice := sampleSortSlice
    PendingRequeueDuration := 3
    Finalizer := "finalizer"
    KubernetesHostNameLabel := "kubernetes.io/hostname" }

/-- A workload `w` in namespace `ns` asking for two replicas. -/
def sampleWorkload : Workload :=
  { Name := "w", Namespace := "ns", UID := "uid-w",
    Spec := { PoolName := "pool", Replicas := some 2,
              Resources := { Requests := ⟨1, 2⟩, Limits := ⟨3, 4⟩ },
              GPUCount := 1, GPUModel := "", NodeAffinity := "" },
    Status := { Replicas := 0, ReadyReplicas := 0, Phase := "", Conditions := [],
                PodTemplateHash := "", WorkerStatuses := [] } }

/-- A worker pod of `sampleWorkload` holding `gpu-a` and `gpu-b`, as `tryStartWorker` creates
it in `sampleEnv`. -/
def sampleWorkerPod : Pod :=
  { Name := "w", Namespace := "ns",
    Labels := some [("podTemplateHash", "h"), ("workload", "w")],
    Annotations := some [("gpus", "gpu-a,gpu-b")],
    Finalizers := ["finalizer"],
    OwnerReferences := [{ APIVersion := "tensor-fusion.ai/v1", Kind := "TensorFusionWorkload",
                          Name := "w", UID := "uid-w", Controller := some true,
                          BlockOwnerDeletion := some true }],
    CreationTimestamp := 0, DeletionTimestamp := none, ResourceVersion := "",
    Spec := { NodeName := "", NodeSelector := none },
    Status := { Phase := "", Conditions := [], PodIP := "" } }

/-- A world in which `Create` fails in iteration `n` and everything else succeeds. -/
def sampleEnvCreateFailsAt (n : Nat) : Env :=
  { sampleEnv with Create := fun it _ => if it = n then some "boom" else none }

/-- A world in which the allocator has one free GPU: `Alloc` succeeds in iteration 0 only. -/
def sampleEnvStarved : Env :=
  { sampleEnv with
    Alloc := fun it _ => if it = 0 then .ok [sampleGpuA] else .error "no free gpu" }

/-- The pod `tryStartWorker` hands to `Create` for `sampleWorkload` on `gpu-a` in
`sampleEnv`. -/
def sampleLaunchedPod : Pod :=
  { sampleWorkerPod with Annotations := some [("gpus", "gpu-a")] }

/-- A running worker pod of `sampleWorkload` at hash `h`, created at `created`. -/
def samplePodAt (name : String) (created : Time) : Pod :=
  { sampleWorkerPod with Name := name, CreationTimestamp := created }

/-- A world in which the status write is refused and everything else succeeds. -/
def sampleEnvStatusFails : Env :=
  { sampleEnv with StatusUpdate := fun _ => some "conflict" }

/-- A worker pod of `sampleWorkload` still at the hash `old`. -/
def sampleOldPod : Pod :=
  { sampleWorkerPod with
    Name := "b", CreationTimestamp := 2
    Labels := some [("podTemplateHash", "old"), ("workload", "w")] }

/-- The workload `sampleWorkload` asking for one replica. -/
def sampleWorkloadOne : Workload :=
  { sampleWorkload with Spec := { sampleWorkload.Spec with Replicas := some 1 } }

/-- Three pods at the current hash `h`, created at 30, 10 and 20. -/
def sampleThreePods : List Pod :=
  [samplePodAt "a" 30, samplePodAt "b" 10, samplePodAt "c" 20]

/-- The worker phase as the specification words it: `Running` for a running pod whose Ready
condition is true, `Failed` for a failed pod, `Pending` in every other case. -/
def workerPhaseSpec (env : Env) (pod : Pod) : String :=
  if pod.Status.Phase = PodRunning ∧ env.IsPodConditionTrue pod.Status.Conditions PodReady = true
  then WorkerRunning
  else if pod.Status.Phase = PodFailed then WorkerFailed
  else WorkerPending

/-- The pods that get a worker status: no deletion timestamp, and `WorkerPort` returns a
port. -/
def reportsWorker (env : Env) (pod : Pod) : Bool :=
  pod.DeletionTimestamp.isNone &&
    (match env.WorkerPort pod with
      | .ok _ => true
      | .error _ => false)

/-- The worker status of a pod as the specification words it: name, IP and resource version
of the pod, the port `WorkerPort` returns, the phase of `workerPhaseSpec`. -/
def workerStatusSpec (env : Env) (pod : Pod) : WorkerStatus :=
  { WorkerPhase := workerPhaseSpec env pod
    WorkerName := pod.Name
    WorkerIp := pod.Status.PodIP
    WorkerPort := (match env.WorkerPort pod with
      | .ok port => port
      | .error _ => 0)
    NodeSelector := pod.Spec.NodeSelector
    ResourceVersion := pod.ResourceVersion }

/-- A world in which `WorkerPort` finds no port on any pod. -/
def sampleEnvNoPort : Env :=
  { sampleEnv with WorkerPort := fun _ => .error "no port annotation" }

/-- A running pod whose Ready condition is true. -/
def sampleReadyPod : Pod :=
  { samplePodAt "a" 1 with
    Status := { Phase := "Running", Conditions := [⟨"Ready", "True"⟩], PodIP := "10.0.0.1" } }

/-- A failed pod. -/
def sampleFailedPod : Pod :=
  { samplePodAt "b" 2 with
    Status := { Phase := "Failed", Conditions := [], PodIP := "10.0.0.2" } }

/-- A pod that is being deleted. -/
def sampleTerminatingPod : Pod :=
  { samplePodAt "c" 3 with DeletionTimestamp := some 9 }

/-- The workload `sampleWorkload` with `Spec.Replicas` unset. -/
def sampleWorkloadNil : Workload :=
  { sampleWorkload with Spec := { sampleWorkload.Spec with Replicas := none } }

/-- Lookup in a filtered association list, for a key the filter keeps. -/
theorem lookup_filter_ne (m : StringMap) (k k2 : String) (h : k2 ≠ k) :
    (m.filter (fun kv => kv.1 != k)).lookup k2 = m.lookup k2 := by
  induction m with
  | nil => rfl
  | cons kv rest ih =>
    obtain ⟨a, b⟩ := kv
    by_cases hak : a = k
    · subst hak
      have h1 : (k2 == a) = false := by simpa using h
      simp [List.filter, List.lookup, h1, ih]
    · have h2 : (a != k) = true := by simpa using hak
      by_cases h3 : k2 = a
      · subst h3
        simp [List.filter, h2, List.lookup]
      · have h4 : (k2 == a) = false := by simpa using h3
        simp [List.filter, h2, List.lookup, h4, ih]

/-- Assigning one key leaves the lookup of another key as it was. -/
theorem lookup_mapAssign_ne (m : StringMap) (k v k2 : String) (h : k2 ≠ k) :
    (mapAssign m k v).lookup k2 = m.lookup k2 := by
  have h1 : (k2 == k) = false := by simpa using h
  simp only [mapAssign, List.lookup, h1]
  exact lookup_filter_ne m k k2 h

/-- Assigning a key makes the lookup of that key the value assigned. -/
theorem lookup_mapAssign_self (m : StringMap) (k v : String) :
    (mapAssign m k v).lookup k = some v := by
  simp [mapAssign, List.lookup]

/-! ## handlePodGPUCleanup -/

/-- C1: for a pod that has an annotation map, `handlePodGPUCleanup` calls `Dealloc` at most
once, and exactly once if and only if the update stamping the gpu-released annotation
succeeded and the pod carries a gpus annotation; a failed update returns its error with
"finalizer removable" false and no `Dealloc`; a successful update returns true and no
error. -/
theorem handlePodGPUCleanup_dealloc_iff (env : Env) (workload : Workload) (pod : Pod)
    (annotations : StringMap) (h : pod.Annotations = some annotations) :
    countDealloc (handlePodGPUCleanup env pod workload).2 ≤ 1 ∧
    (countDealloc (handlePodGPUCleanup env pod workload).2 = 1 ↔
      (env.Update (stampGpuReleased pod annotations env.shortuuidNew) = none ∧
        (mapLookup pod.Annotations GpuKey).isSome = true)) ∧
    (∀ err, env.Update (stampGpuReleased pod annotations env.shortuuidNew) = some err →
      (handlePodGPUCleanup env pod workload).1 = .ok (false, some err) ∧
        countDealloc (handlePodGPUCleanup env pod workload).2 = 0) ∧
    (env.Update (stampGpuReleased pod annotations env.shortuuidNew) = none →
      (handlePodGPUCleanup env pod workload).1 = .ok (true, none)) := by
  have hk : GpuKey ≠ GpuReleasedAnnotation := by decide
  have hl : (mapAssign annotations GpuReleasedAnnotation env.shortuuidNew).lookup GpuKey =
      annotations.lookup GpuKey := lookup_mapAssign_ne _ _ _ _ hk
  have hs : (stampGpuReleased pod annotations env.shortuuidNew).Annotations =
      some (mapAssign annotations GpuReleasedAnnotation env.shortuuidNew) := rfl
  cases hu : env.Update (stampGpuReleased pod annotations env.shortuuidNew) with
  | some err => simp [handlePodGPUCleanup, h, hu, countDealloc]
  | none =>
    cases hg : annotations.lookup GpuKey with
    | none => simp [handlePodGPUCleanup, h, hu, mapLookup, hs, hl, hg, countDealloc]
    | some names => simp [handlePodGPUCleanup, h, hu, mapLookup, hs, hl, hg, countDealloc]

/-! ## strings.Join and strings.Split -/

/-- Scanning a run of bytes without the separator only extends the current field. -/
theorem splitAux_append (sep : Char) (a rest cur : List Char) (h : ∀ c ∈ a, c ≠ sep) :
    splitAux sep (a ++ rest) cur = splitAux sep rest (a.reverse ++ cur) := by
  induction a generalizing cur with
  | nil => rfl
  | cons c cs ih =>
    have hc : c ≠ sep := h c (List.mem_cons_self _ _)
    have hcs : ∀ d ∈ cs, d ≠ sep := fun d hd => h d (List.mem_cons_of_mem _ hd)
    simp [splitAux, hc, ih _ hcs]

/-- Splitting a joined non-empty list of separator-free strings gives the fields back, the
first one after whatever was already read. -/
theorem splitAux_stringsJoin (sep : Char) (n : String) (ns : List String) (cur : List Char)
    (h : ∀ s ∈ n :: ns, sep ∉ s.data) :
    splitAux sep (stringsJoin (n :: ns) sep).data cur =
      (cur.reverse ++ n.data) :: ns.map String.data := by
  induction ns generalizing n cur with
  | nil =>
    have hn : ∀ c ∈ n.data, c ≠ sep := fun c hc hcs => h n (List.mem_cons_self _ _) (hcs ▸ hc)
    have := splitAux_append sep n.data [] cur hn
    simp only [List.append_nil] at this
    simp [stringsJoin, this, splitAux]
  | cons b rest ih =>
    have hn : ∀ c ∈ n.data, c ≠ sep := fun c hc hcs => h n (List.mem_cons_self _ _) (hcs ▸ hc)
    have hrest : ∀ s ∈ b :: rest, sep ∉ s.data := fun s hs => h s (List.mem_cons_of_mem _ hs)
    have hd : (stringsJoin (n :: b :: rest) sep).data =
        n.data ++ sep :: (stringsJoin (b :: rest) sep).data := by
      simp [stringsJoin, String.data_append]
    rw [hd, splitAux_append sep n.data _ cur hn]
    simp [splitAux, ih b [] hrest]

/-- Function `strings.Split` undoes `strings.Join` on a non-empty list of strings that do not
contain the separator. -/
theorem stringsSplit_stringsJoin (sep : Char) (names : List String) (hne : names ≠ [])
    (h : ∀ s ∈ names, sep ∉ s.data) :
    stringsSplit (stringsJoin names sep) sep = names := by
  cases names with
  | nil => exact absurd rfl hne
  | cons n ns =>
    unfold stringsSplit
    rw [splitAux_stringsJoin sep n ns [] h]
    simp [List.map_map, Function.comp_def]

/-! ## tryStartWorker -/

/-- Setting the controller reference changes the owner references only. -/
theorem SetControllerReference_ok (env : Env) (workload : Workload) (pod pod2 : Pod)
    (h : SetControllerReference env workload pod = .ok pod2) :
    pod2 = { pod with OwnerReferences := pod2.OwnerReferences } := by
  unfold SetControllerReference at h
  split_ifs at h
  split at h
  · cases h
  · split at h
    · dsimp only at h
      split_ifs at h
      cases h
      rfl
    · cases h
      rfl

/-- What `tryStartWorker` calls: never the allocator, never a release of a host port, never a
delete; one successful `Create`, of the pod it returns, when it succeeds, and none when it
fails. -/
theorem tryStartWorker_trace (env : Env) (it : Nat) (gpus : List GPU) (workload : Workload)
    (hash : String) :
    countDealloc (tryStartWorker env it gpus workload hash).2 = 0 ∧
    countAlloc (tryStartWorker env it gpus workload hash).2 = 0 ∧
    countReleaseHostPort (tryStartWorker env it gpus workload hash).2 = 0 ∧
    deletedPods (tryStartWorker env it gpus workload hash).2 = [] ∧
    (∀ pod, (tryStartWorker env it gpus workload hash).1 = .ok pod →
      createdPods (tryStartWorker env it gpus workload hash).2 = [pod]) ∧
    (∀ err, (tryStartWorker env it gpus workload hash).1 = .error err →
      createdPods (tryStartWorker env it gpus workload hash).2 = []) ∧
    countScheduleGPUFailed (tryStartWorker env it gpus workload hash).2 = 0 := by
  cases gpus with
  | nil =>
    simp [tryStartWorker, countDealloc, countAlloc, countReleaseHostPort, deletedPods,
      createdPods, countScheduleGPUFailed]
  | cons g0 rest =>
    by_cases hl : g0.Labels.isNone = true
    · simp [tryStartWorker, hl, countDealloc, countAlloc, countReleaseHostPort, deletedPods,
        createdPods, countScheduleGPUFailed]
    · cases h1 : env.AssignHostPort it
          (mapIndex g0.Status.NodeSelector env.KubernetesHostNameLabel) with
      | error e =>
        simp [tryStartWorker, hl, h1, countDealloc, countAlloc, countReleaseHostPort,
          deletedPods, createdPods, countScheduleGPUFailed]
      | ok port =>
        cases h2 : env.GenerateWorkerPod it (g0 :: rest) workload.Name workload.Namespace port
            workload.Spec.Resources.Requests workload.Spec.Resources.Limits hash with
        | error e =>
          simp [tryStartWorker, hl, h1, h2, countDealloc, countAlloc, countReleaseHostPort,
            deletedPods, createdPods, countScheduleGPUFailed]
        | ok ph =>
          obtain ⟨pod0, hash2⟩ := ph
          cases h3 : SetControllerReference env workload
              (imprintPod env (g0 :: rest) workload pod0 hash2) with
          | error e =>
            simp [tryStartWorker, hl, h1, h2, h3, countDealloc, countAlloc,
              countReleaseHostPort, deletedPods, createdPods, countScheduleGPUFailed]
          | ok pod1 =>
            cases h4 : env.Create it pod1 with
            | some e =>
              simp [tryStartWorker, hl, h1, h2, h3, h4, countDealloc, countAlloc,
                countReleaseHostPort, deletedPods, createdPods, countScheduleGPUFailed]
            | none =>
              simp [tryStartWorker, hl, h1, h2, h3, h4, countDealloc, countAlloc,
                countReleaseHostPort, deletedPods, createdPods, countScheduleGPUFailed]

/-- A pod that `tryStartWorker` returns carries the gpus annotation it imprinted: the GPU
names joined with a comma. -/
theorem tryStartWorker_ok_gpus (env : Env) (it : Nat) (gpus : List GPU) (workload : Workload)
    (hash : String) (created : Pod)
    (h : (tryStartWorker env it gpus workload hash).1 = .ok created) :
    mapLookup created.Annotations GpuKey =
      some (stringsJoin (gpus.map (fun gpu => gpu.Name)) ',') := by
  cases gpus with
  | nil => simp [tryStartWorker] at h
  | cons g0 rest =>
    by_cases hl : g0.Labels.isNone = true
    · simp [tryStartWorker, hl] at h
    · cases h1 : env.AssignHostPort it
          (mapIndex g0.Status.NodeSelector env.KubernetesHostNameLabel) with
      | error e => simp [tryStartWorker, hl, h1] at h
      | ok port =>
        cases h2 : env.GenerateWorkerPod it (g0 :: rest) workload.Name workload.Namespace port
            workload.Spec.Resources.Requests workload.Spec.Resources.Limits hash with
        | error e => simp [tryStartWorker, hl, h1, h2] at h
        | ok ph =>
          obtain ⟨pod0, hash2⟩ := ph
          cases h3 : SetControllerReference env workload
              (imprintPod env (g0 :: rest) workload pod0 hash2) with
          | error e => simp [tryStartWorker, hl, h1, h2, h3] at h
          | ok pod1 =>
            cases h4 : env.Create it pod1 with
            | some e => simp [tryStartWorker, hl, h1, h2, h3, h4] at h
            | none =>
              simp [tryStartWorker, hl, h1, h2, h3, h4] at h
              subst h
              have := SetControllerReference_ok env workload _ _ h3
              rw [this]
              simp only [mapLookup, imprintPod]
              exact lookup_mapAssign_self _ _ _

/-- Witness of C1: the sample worker pod has an annotation map and is released once. -/
theorem handlePodGPUCleanup_dealloc_iff_witness :
    sampleWorkerPod.Annotations = some [("gpus", "gpu-a,gpu-b")] ∧
    countDealloc (handlePodGPUCleanup sampleEnv sampleWorkerPod sampleWorkload).2 ≤ 1 :=
  ⟨rfl, (handlePodGPUCleanup_dealloc_iff sampleEnv sampleWorkload sampleWorkerPod
    [("gpus", "gpu-a,gpu-b")] rfl).1⟩

/-- C2: for a non-empty list of GPUs whose names contain no comma, the gpus annotation that
`tryStartWorker` imprints (the names joined with a comma) is split by `handlePodGPUCleanup`
into the same names in the same order; when the gpu-released update succeeds, `Dealloc` is
called with the name and namespace of the workload, its `Spec.Resources.Requests` and the
names of the GPUs allocated to the pod. -/
theorem gpus_annotation_roundtrip (env : Env) (it : Nat) (gpus : List GPU) (workload : Workload)
    (hash : String) (created pod : Pod) (annotations : StringMap)
    (hne : gpus ≠ [])
    (hcomma : ∀ gpu ∈ gpus, ',' ∉ gpu.Name.data)
    (hstart : (tryStartWorker env it gpus workload hash).1 = .ok created)
    (hann : pod.Annotations = some annotations)
    (hkept : mapLookup pod.Annotations GpuKey = mapLookup created.Annotations GpuKey)
    (hupd : env.Update (stampGpuReleased pod annotations env.shortuuidNew) = none) :
    mapLookup created.Annotations GpuKey =
      some (stringsJoin (gpus.map (fun gpu => gpu.Name)) ',') ∧
    stringsSplit (stringsJoin (gpus.map (fun gpu => gpu.Name)) ',') ',' =
      gpus.map (fun gpu => gpu.Name) ∧
    handlePodGPUCleanup env pod workload =
      (.ok (true, none),
        [Call.Update (stampGpuReleased pod annotations env.shortuuidNew) none,
         Call.Dealloc { Name := workload.Name, Namespace := workload.Namespace }
           workload.Spec.Resources.Requests
           ((gpus.map (fun gpu => gpu.Name)).map
             (fun gpuName => { Namespace := "", Name := gpuName }))]) := by
  have hjoin := tryStartWorker_ok_gpus env it gpus workload hash created hstart
  have hsplit : stringsSplit (stringsJoin (gpus.map (fun gpu => gpu.Name)) ',') ',' =
      gpus.map (fun gpu => gpu.Name) := by
    apply stringsSplit_stringsJoin
    · simpa using hne
    · intro s hs
      obtain ⟨gpu, hg, rfl⟩ := List.mem_map.1 hs
      exact hcomma gpu hg
  refine ⟨hjoin, hsplit, ?_⟩
  have hk : GpuKey ≠ GpuReleasedAnnotation := by decide
  have hl : (mapAssign annotations GpuReleasedAnnotation env.shortuuidNew).lookup GpuKey =
      annotations.lookup GpuKey := lookup_mapAssign_ne _ _ _ _ hk
  have hs : (stampGpuReleased pod annotations env.shortuuidNew).Annotations =
      some (mapAssign annotations GpuReleasedAnnotation env.shortuuidNew) := rfl
  have hg : annotations.lookup GpuKey =
      some (stringsJoin (gpus.map (fun gpu => gpu.Name)) ',') := by
    rw [← hjoin, ← hkept, hann]
    rfl
  simp [handlePodGPUCleanup, hann, hupd, mapLookup, hs, hl, hg, hsplit, gpuNamesToKeys]

/-- Witness of C2: a worker started on `gpu-a` and `gpu-b`, cleaned up later. -/
theorem gpus_annotation_roundtrip_witness :
    stringsSplit (stringsJoin ([sampleGpuA, sampleGpuB].map (fun gpu => gpu.Name)) ',') ',' =
      [sampleGpuA, sampleGpuB].map (fun gpu => gpu.Name) :=
  (gpus_annotation_roundtrip sampleEnv 0 [sampleGpuA, sampleGpuB] sampleWorkload "h"
    sampleWorkerPod { sampleWorkerPod with DeletionTimestamp := some 5 }
    [("gpus", "gpu-a,gpu-b")] (by decide) (by decide) (by rfl) rfl rfl rfl).2.1

/-! ## scaleUpWorkers -/

/-- One successful iteration of the scale-up loop: an `Alloc`, the calls of the launch, then
the rest of the loop. -/
theorem scaleUpLoop_step_ok (env : Env) (workload : Workload) (hash : String) (n it : Nat)
    (h : iterationSucceeds env workload hash it = true) :
    ∃ tr : List Call,
      scaleUpLoop env workload hash (n + 1) it =
        ((scaleUpLoop env workload hash n (it + 1)).1,
          tr ++ (scaleUpLoop env workload hash n (it + 1)).2) ∧
      countDealloc tr = 0 ∧ countAlloc tr = 1 ∧ countReleaseHostPort tr = 0 ∧
      countScheduleGPUFailed tr = 0 ∧ (createdPods tr).length = 1 := by
  unfold iterationSucceeds at h
  cases ha : env.Alloc it (allocRequest workload) with
  | error e => simp [ha] at h
  | ok gpus =>
    simp only [ha] at h
    cases ht : tryStartWorker env it gpus workload hash with
    | mk res tr =>
      cases res with
      | error e => simp [ht] at h
      | ok pod =>
        have hc := tryStartWorker_trace env it gpus workload hash
        rw [ht] at hc
        obtain ⟨hd, hal, hr, -, hcr, -, hev⟩ := hc
        have hcr2 := hcr pod rfl
        refine ⟨[Call.Alloc (allocRequest workload),
          Call.SetSchedulerMetrics workload.Spec.PoolName true] ++ tr, ?_, ?_, ?_, ?_, ?_, ?_⟩
        · simp [scaleUpLoop, ha, ht]
        · simpa [countDealloc] using hd
        · simpa [countAlloc] using hal
        · simpa [countReleaseHostPort] using hr
        · simpa [countScheduleGPUFailed] using hev
        · simp only [createdPods] at hcr2 ⊢
          simp [hcr2]

/-- After `i` successful iterations the scale-up loop has made `i` `Alloc` calls, created `i`
pods and released nothing, and goes on with the remaining iterations. -/
theorem scaleUpLoop_run_ok (env : Env) (workload : Workload) (hash : String) (i m start : Nat)
    (h : ∀ j, j < i → iterationSucceeds env workload hash (start + j) = true) :
    ∃ tr : List Call,
      scaleUpLoop env workload hash (i + m) start =
        ((scaleUpLoop env workload hash m (start + i)).1,
          tr ++ (scaleUpLoop env workload hash m (start + i)).2) ∧
      countDealloc tr = 0 ∧ countAlloc tr = i ∧ countReleaseHostPort tr = 0 ∧
      countScheduleGPUFailed tr = 0 ∧ (createdPods tr).length = i := by
  induction i generalizing start with
  | zero => exact ⟨[], by simp, rfl, rfl, rfl, rfl, rfl⟩
  | succ i ih =>
    have h0 : iterationSucceeds env workload hash start = true := by
      simpa using h 0 (Nat.succ_pos i)
    obtain ⟨tr1, e1, d1, a1, r1, s1, c1⟩ :=
      scaleUpLoop_step_ok env workload hash (i + m) start h0
    have hrest : ∀ j, j < i → iterationSucceeds env workload hash (start + 1 + j) = true := by
      intro j hj
      have := h (j + 1) (Nat.succ_lt_succ hj)
      rwa [show start + (j + 1) = start + 1 + j by omega] at this
    obtain ⟨tr2, e2, d2, a2, r2, s2, c2⟩ := ih (start + 1) hrest
    have hidx : start + 1 + i = start + (i + 1) := by omega
    rw [hidx] at e2
    refine ⟨tr1 ++ tr2, ?_, ?_, ?_, ?_, ?_, ?_⟩
    · rw [show i + 1 + m = i + m + 1 by omega, e1, e2]
      simp
    · simp only [countDealloc, List.countP_append] at d1 d2 ⊢
      omega
    · simp only [countAlloc, List.countP_append] at a1 a2 ⊢
      omega
    · simp only [countReleaseHostPort, List.countP_append] at r1 r2 ⊢
      omega
    · simp only [countScheduleGPUFailed, List.countP_append] at s1 s2 ⊢
      omega
    · simp only [createdPods, List.filterMap_append, List.length_append] at c1 c2 ⊢
      omega

/-- Whatever happens, `scaleUpWorkers` never calls `ReleaseHostPort`. -/
theorem scaleUpLoop_never_releases_port (env : Env) (workload : Workload) (hash : String)
    (n it : Nat) : countReleaseHostPort (scaleUpLoop env workload hash n it).2 = 0 := by
  induction n generalizing it with
  | zero => rfl
  | succ n ih =>
    cases ha : env.Alloc it (allocRequest workload) with
    | error e => simp [scaleUpLoop, ha, countReleaseHostPort]
    | ok gpus =>
      have hc := (tryStartWorker_trace env it gpus workload hash).2.2.1
      cases ht : tryStartWorker env it gpus workload hash with
      | mk res tr =>
        rw [ht] at hc
        have ih2 := ih (it + 1)
        cases res with
        | error e =>
          simp only [scaleUpLoop, ha, ht, countReleaseHostPort, List.countP_append] at hc ⊢
          simp [hc]
        | ok pod =>
          simp only [scaleUpLoop, ha, ht, countReleaseHostPort, List.countP_append] at hc ih2 ⊢
          simp [hc, ih2]

/-- C3: in `scaleUpWorkers`, when `Alloc` returns the GPUs `gpus` in an iteration and
`tryStartWorker` then fails, `Dealloc` is called exactly once, as the last call, with the
name and namespace of the workload, `Spec.Resources.Requests` and the names of `gpus`; a
non-nil error is returned, no further iteration runs (`i + 1` `Alloc` calls in all), and the
`i` pods of the earlier iterations stay created with their GPUs. -/
theorem scaleUpWorkers_launch_failure (env : Env) (workload : Workload) (hash : String)
    (k i : Nat) (gpus : List GPU) (err : String)
    (hi : i < k)
    (hprev : ∀ j, j < i → iterationSucceeds env workload hash j = true)
    (halloc : env.Alloc i (allocRequest workload) = .ok gpus)
    (hlaunch : (tryStartWorker env i gpus workload hash).1 = .error err) :
    (scaleUpWorkers env workload k hash).1 =
      (Result.zero, some ("create worker pod: " ++ err)) ∧
    countDealloc (scaleUpWorkers env workload k hash).2 = 1 ∧
    (scaleUpWorkers env workload k hash).2.getLast? =
      some (Call.Dealloc { Name := workload.Name, Namespace := workload.Namespace }
        workload.Spec.Resources.Requests (gpus.map ObjectKeyFromObject)) ∧
    (gpus.map ObjectKeyFromObject).map (fun key => key.Name) = gpus.map (fun gpu => gpu.Name) ∧
    countAlloc (scaleUpWorkers env workload k hash).2 = i + 1 ∧
    (createdPods (scaleUpWorkers env workload k hash).2).length = i := by
  obtain ⟨m, rfl⟩ : ∃ m, k = i + (m + 1) := ⟨k - i - 1, by omega⟩
  have hprev2 : ∀ j, j < i → iterationSucceeds env workload hash (0 + j) = true := by
    simpa using hprev
  obtain ⟨pre, e, d, a, -, -, c⟩ := scaleUpLoop_run_ok env workload hash i (m + 1) 0 hprev2
  have hc := tryStartWorker_trace env i gpus workload hash
  cases ht : tryStartWorker env i gpus workload hash with
  | mk res tr =>
    rw [ht] at hc hlaunch
    obtain ⟨hd, hal, -, -, -, hcr, -⟩ := hc
    simp only at hlaunch
    subst hlaunch
    have hcr2 := hcr err rfl
    have hlast : scaleUpLoop env workload hash (m + 1) (0 + i) =
        ((Result.zero, some ("create worker pod: " ++ err)),
          [Call.Alloc (allocRequest workload),
           Call.SetSchedulerMetrics workload.Spec.PoolName true] ++ tr ++
          [Call.Dealloc { Namespace := workload.Namespace, Name := workload.Name }
             workload.Spec.Resources.Requests (gpus.map ObjectKeyFromObject)]) := by
      simp [scaleUpLoop, halloc, ht]
    simp only [scaleUpWorkers, Int.toNat_ofNat, e, hlast]
    refine ⟨trivial, ?_, ?_, ?_, ?_, ?_⟩
    · simp only [countDealloc, List.countP_append] at d hd ⊢
      simp [d, hd]
    · rw [← List.append_assoc]
      exact List.getLast?_concat _
    · simp [ObjectKeyFromObject, Function.comp_def]
    · simp only [countAlloc, List.countP_append] at a hal ⊢
      simp [a, hal]
    · simp only [createdPods, List.filterMap_append, List.length_append] at c hcr2 ⊢
      simp [c, hcr2]

/-- Witness of C3: two workers wanted, the first starts, the creation of the second fails. -/
theorem scaleUpWorkers_launch_failure_witness :
    countDealloc (scaleUpWorkers (sampleEnvCreateFailsAt 1) sampleWorkload 2 "h").2 = 1 :=
  (scaleUpWorkers_launch_failure (sampleEnvCreateFailsAt 1) sampleWorkload "h" 2 1
    [sampleGpuA] "create pod boom" (by decide)
    (by intro j hj; interval_cases j; rfl) rfl rfl).2.1

/-- C4, evaluated: one worker is wanted, `AssignHostPort` reserves port 40000 on `node-1`,
`Create` fails. `scaleUpWorkers` returns the error after these calls only: the GPU is handed
back by `Dealloc`, the host port is not released. -/
theorem scaleUpWorkers_leaks_host_port :
    tryStartWorker (sampleEnvCreateFailsAt 0) 0 [sampleGpuA] sampleWorkload "h" =
      (.error "create pod boom",
        [Call.AssignHostPort "node-1", Call.Create sampleLaunchedPod (some "boom")]) ∧
    scaleUpWorkers (sampleEnvCreateFailsAt 0) sampleWorkload 1 "h" =
      ((Result.zero, some "create worker pod: create pod boom"),
        [Call.Alloc (allocRequest sampleWorkload),
         Call.SetSchedulerMetrics "pool" true,
         Call.AssignHostPort "node-1",
         Call.Create sampleLaunchedPod (some "boom"),
         Call.Dealloc { Name := "w", Namespace := "ns" } ⟨1, 2⟩
           [{ Namespace := "", Name := "gpu-a" }]]) ∧
    countReleaseHostPort
      (scaleUpWorkers (sampleEnvCreateFailsAt 0) sampleWorkload 1 "h").2 = 0 := by
  refine ⟨rfl, rfl, ?_⟩
  exact scaleUpLoop_never_releases_port _ _ _ _ _

/-- C5: in `scaleUpWorkers` called with count `k`, if `Alloc` fails in iteration `i < k`
after `i` iterations that allocated and launched, then `i` pods have been created, `Alloc`
has been called `i + 1` times, `Dealloc` has not been called, one `ScheduleGPUFailed` warning
event has been emitted, and the result is `RequeueAfter: PendingRequeueDuration` with a nil
error; if every one of the `k` iterations allocates and launches, `k` pods are created and
the result is the zero result with a nil error. -/
theorem scaleUpWorkers_alloc_failure (env : Env) (workload : Workload) (hash : String)
    (k : Nat) :
    (∀ (i : Nat) (err : String), i < k →
      (∀ j, j < i → iterationSucceeds env workload hash j = true) →
      env.Alloc i (allocRequest workload) = .error err →
      (scaleUpWorkers env workload k hash).1 =
        ({ Requeue := false, RequeueAfter := env.PendingRequeueDuration }, none) ∧
      (createdPods (scaleUpWorkers env workload k hash).2).length = i ∧
      countAlloc (scaleUpWorkers env workload k hash).2 = i + 1 ∧
      countDealloc (scaleUpWorkers env workload k hash).2 = 0 ∧
      countScheduleGPUFailed (scaleUpWorkers env workload k hash).2 = 1 ∧
      Call.Eventf EventTypeWarning "ScheduleGPUFailed" ("Failed to schedule GPU: " ++ err) ∈
        (scaleUpWorkers env workload k hash).2) ∧
    ((∀ j, j < k → iterationSucceeds env workload hash j = true) →
      (scaleUpWorkers env workload k hash).1 = (Result.zero, none) ∧
      (createdPods (scaleUpWorkers env workload k hash).2).length = k ∧
      countDealloc (scaleUpWorkers env workload k hash).2 = 0) := by
  constructor
  · intro i err hi hprev hfail
    obtain ⟨m, rfl⟩ : ∃ m, k = i + (m + 1) := ⟨k - i - 1, by omega⟩
    have hprev2 : ∀ j, j < i → iterationSucceeds env workload hash (0 + j) = true := by
      simpa using hprev
    obtain ⟨pre, e, d, a, -, sg, c⟩ := scaleUpLoop_run_ok env workload hash i (m + 1) 0 hprev2
    have hlast : scaleUpLoop env workload hash (m + 1) (0 + i) =
        (({ Requeue := false, RequeueAfter := env.PendingRequeueDuration }, none),
          [Call.Alloc (allocRequest workload),
           Call.SetSchedulerMetrics workload.Spec.PoolName false,
           Call.Eventf EventTypeWarning "ScheduleGPUFailed"
             ("Failed to schedule GPU: " ++ err)]) := by
      simp [scaleUpLoop, hfail]
    simp only [scaleUpWorkers, Int.toNat_ofNat, e, hlast]
    refine ⟨trivial, ?_, ?_, ?_, ?_, ?_⟩
    · simp only [createdPods, List.filterMap_append, List.length_append] at c ⊢
      simp [c]
    · simp only [countAlloc, List.countP_append] at a ⊢
      simp [a]
    · simp only [countDealloc, List.countP_append] at d ⊢
      simp [d]
    · have happ : countScheduleGPUFailed (pre ++
          [Call.Alloc (allocRequest workload),
           Call.SetSchedulerMetrics workload.Spec.PoolName false,
           Call.Eventf EventTypeWarning "ScheduleGPUFailed"
             ("Failed to schedule GPU: " ++ err)]) =
          countScheduleGPUFailed pre + 1 := by
        unfold countScheduleGPUFailed
        rw [List.countP_append]
        rfl
      rw [happ, sg]
    · simp
  · intro hall
    have hall2 : ∀ j, j < k → iterationSucceeds env workload hash (0 + j) = true := by
      simpa using hall
    obtain ⟨pre, e, d, -, -, -, c⟩ := scaleUpLoop_run_ok env workload hash k 0 0 hall2
    simp only [Nat.add_zero] at e
    simp only [scaleUpWorkers, Int.toNat_ofNat, e, scaleUpLoop]
    refine ⟨trivial, ?_, ?_⟩
    · simpa using c
    · simpa using d

/-- Witness of C5: two workers wanted, one free GPU. -/
theorem scaleUpWorkers_alloc_failure_witness :
    (scaleUpWorkers sampleEnvStarved sampleWorkload 2 "h").1 = (⟨false, 3⟩, none) ∧
    (createdPods (scaleUpWorkers sampleEnvStarved sampleWorkload 2 "h").2).length = 1 :=
  have h := (scaleUpWorkers_alloc_failure sampleEnvStarved sampleWorkload "h" 2).1 1
    "no free gpu" (by decide) (by intro j hj; interval_cases j; rfl) rfl
  ⟨h.1, h.2.1⟩

/-! ## scaleDownWorkers, reconcileScaling -/

/-- Conversion to `int32` keeps a value that fits. -/
theorem toInt32_of_fits (x : Int) (h0 : 0 ≤ x) (h1 : x < 2 ^ 31) : toInt32 x = x := by
  unfold toInt32
  have h2 : (x + 2 ^ 31) % 2 ^ 32 = x + 2 ^ 31 := by
    apply Int.emod_eq_of_lt
    · omega
    · norm_num at h1 ⊢
      omega
  rw [h2]
  omega

/-- When every delete succeeds, `scaleDownWorkers` deletes the pods it is given, in order,
and returns no error. -/
theorem scaleDownLoop_all_ok (env : Env) (pods : List Pod) (it : Nat)
    (h : ∀ n pod, pod ∈ pods → env.Delete n pod = none) :
    scaleDownLoop env pods it = (none, pods.map (fun pod => Call.Delete pod none)) := by
  induction pods generalizing it with
  | nil => rfl
  | cons pod rest ih =>
    have h1 : env.Delete it pod = none := h it pod (List.mem_cons_self _ _)
    have h2 := ih (it + 1) (fun n q hq => h n q (List.mem_cons_of_mem _ hq))
    simp [scaleDownLoop, deletePod, h1, h2]

/-- A trace of successful deletes: the pods deleted are the pods of the calls, and nothing is
allocated or created. -/
theorem deletes_trace (pods : List Pod) :
    deletedPods (pods.map (fun pod => Call.Delete pod none)) = pods ∧
    countAlloc (pods.map (fun pod => Call.Delete pod none)) = 0 ∧
    countCreate (pods.map (fun pod => Call.Delete pod none)) = 0 := by
  induction pods with
  | nil => exact ⟨rfl, rfl, rfl⟩
  | cons pod rest ih =>
    obtain ⟨h1, h2, h3⟩ := ih
    refine ⟨?_, ?_, ?_⟩
    · simp only [deletedPods] at h1 ⊢
      simp [h1]
    · simp only [countAlloc] at h2 ⊢
      simp [h2]
    · simp only [countCreate] at h3 ⊢
      simp [h3]

/-- C7: in `reconcileScaling`, if a listed pod has a podTemplateHash label different from the
computed hash, then, every delete succeeding, the pods deleted are exactly the pods whose
label differs from the hash, in list order, no pod with the current hash is deleted, nothing
is allocated or created, and the result is `Requeue: true` with a nil error. -/
theorem reconcileScaling_outdated (env : Env) (workload : Workload) (podList : List Pod)
    (podTemplateHash : String)
    (hout : ∃ pod ∈ podList, mapIndex pod.Labels LabelKeyPodTemplateHash ≠ podTemplateHash)
    (hdel : ∀ n pod, pod ∈ podList → env.Delete n pod = none) :
    (reconcileScaling env workload podList podTemplateHash).1 =
      .ok ({ Requeue := true, RequeueAfter := 0 }, none) ∧
    deletedPods (reconcileScaling env workload podList podTemplateHash).2.2 =
      podList.filter
        (fun pod => mapIndex pod.Labels LabelKeyPodTemplateHash != podTemplateHash) ∧
    (∀ pod ∈ deletedPods (reconcileScaling env workload podList podTemplateHash).2.2,
      mapIndex pod.Labels LabelKeyPodTemplateHash ≠ podTemplateHash) ∧
    countAlloc (reconcileScaling env workload podList podTemplateHash).2.2 = 0 ∧
    countCreate (reconcileScaling env workload podList podTemplateHash).2.2 = 0 := by
  obtain ⟨pod, hmem, hne⟩ := hout
  have hin : pod ∈ outdatedPods podList podTemplateHash := by
    simp [outdatedPods, List.mem_filter, hmem, hne]
  have hnonempty : ¬ (outdatedPods podList podTemplateHash).isEmpty = true := by
    intro hempty
    rw [List.isEmpty_iff] at hempty
    rw [hempty] at hin
    exact absurd hin (List.not_mem_nil _)
  have hdel2 : ∀ n q, q ∈ outdatedPods podList podTemplateHash → env.Delete n q = none :=
    fun n q hq => hdel n q (List.mem_of_mem_filter hq)
  have hrun := scaleDownLoop_all_ok env (outdatedPods podList podTemplateHash) 0 hdel2
  obtain ⟨t1, t2, t3⟩ := deletes_trace (outdatedPods podList podTemplateHash)
  have hres : reconcileScaling env workload podList podTemplateHash =
      (.ok ({ Requeue := true, RequeueAfter := 0 }, none), workload,
        (outdatedPods podList podTemplateHash).map (fun pod => Call.Delete pod none)) := by
    simp [reconcileScaling, hnonempty, scaleDownWorkers, hrun]
  rw [hres]
  refine ⟨rfl, t1, ?_, t2, t3⟩
  intro q hq
  simp only [t1] at hq
  simpa [outdatedPods] using (List.mem_filter.1 hq).2

/-- Witness of C7: of two pods, the one at the old hash is deleted. -/
theorem reconcileScaling_outdated_witness :
    deletedPods (reconcileScaling sampleEnv sampleWorkload
      [samplePodAt "a" 1, sampleOldPod] "h").2.2 = [sampleOldPod] :=
  (reconcileScaling_outdated sampleEnv sampleWorkload [samplePodAt "a" 1, sampleOldPod]
    "h" ⟨sampleOldPod, by decide, by decide⟩ (fun _ _ _ => rfl)).2.1

/-- In a sorted list, no element of a front part comes after an element of the rest. -/
theorem pairwise_take_drop (less : Pod → Pod → Bool) (l : List Pod) (k : Nat)
    (h : l.Pairwise (fun a b => less b a = false)) :
    ∀ p ∈ l.take k, ∀ q ∈ l.drop k, less q p = false := by
  have h2 : (l.take k ++ l.drop k).Pairwise (fun a b => less b a = false) := by
    rw [List.take_append_drop]
    exact h
  exact (List.pairwise_append.1 h2).2.2

/-- C6, as the code has it: in `reconcileScaling`, for a list of `n` pods (fewer than 2^31)
none of which is outdated and a desired count `d`: if `0 ≤ d < n`, the status write of the
replica count (issued when `Status.Replicas` differs from `n`) succeeds and every delete
succeeds, then `n - d` pods are deleted, each created no later than every pod that is kept,
and nothing is allocated or created; if `n = d`, nothing is deleted, allocated or created. -/
theorem reconcileScaling_scale_down (env : Env) (workload : Workload) (podList : List Pod)
    (podTemplateHash : String) (d : Int)
    (hcur : ∀ pod ∈ podList, mapIndex pod.Labels LabelKeyPodTemplateHash = podTemplateHash)
    (hd : workload.Spec.Replicas.getD 1 = d)
    (hn : (podList.length : Int) < 2 ^ 31) :
    (0 ≤ d → d < podList.length →
      (∀ wl, env.StatusUpdate wl = none) →
      (∀ n pod, pod ∈ podList → env.Delete n pod = none) →
      (env.sortSlice creationBefore podList).Perm podList →
      (env.sortSlice creationBefore podList).Pairwise
        (fun a b => creationBefore b a = false) →
      ∃ kept : List Pod,
        (deletedPods (reconcileScaling env workload podList podTemplateHash).2.2 ++ kept).Perm
          podList ∧
        ((deletedPods (reconcileScaling env workload podList podTemplateHash).2.2).length : Int)
          = podList.length - d ∧
        (∀ p ∈ deletedPods (reconcileScaling env workload podList podTemplateHash).2.2,
          ∀ q ∈ kept, p.CreationTimestamp ≤ q.CreationTimestamp) ∧
        countAlloc (reconcileScaling env workload podList podTemplateHash).2.2 = 0 ∧
        countCreate (reconcileScaling env workload podList podTemplateHash).2.2 = 0 ∧
        (reconcileScaling env workload podList podTemplateHash).1 = .ok (Result.zero, none)) ∧
    (d = podList.length →
      deletedPods (reconcileScaling env workload podList podTemplateHash).2.2 = [] ∧
      countDelete (reconcileScaling env workload podList podTemplateHash).2.2 = 0 ∧
      countCreate (reconcileScaling env workload podList podTemplateHash).2.2 = 0 ∧
      countAlloc (reconcileScaling env workload podList podTemplateHash).2.2 = 0) := by
  have hempty : (outdatedPods podList podTemplateHash).isEmpty = true := by
    rw [List.isEmpty_iff, outdatedPods, List.filter_eq_nil_iff]
    intro pod hp
    simp [hcur pod hp]
  have hlen : toInt32 (podList.length : Int) = podList.length :=
    toInt32_of_fits _ (Int.natCast_nonneg _) hn
  constructor
  · intro h0 hlt hstatus hdel hperm hsorted
    have hk : toInt32 ((podList.length : Int) - d) = (podList.length : Int) - d :=
      toInt32_of_fits _ (by omega) (by omega)
    have hslen : (env.sortSlice creationBefore podList).length = podList.length := hperm.length_eq
    have hdel2 : ∀ n pod,
        pod ∈ (env.sortSlice creationBefore podList).take ((podList.length : Int) - d).toNat →
        env.Delete n pod = none :=
      fun n pod hp => hdel n pod (hperm.subset (List.mem_of_mem_take hp))
    have hrun := scaleDownLoop_all_ok env _ 0 hdel2
    obtain ⟨t1, t2, t3⟩ := deletes_trace
      ((env.sortSlice creationBefore podList).take ((podList.length : Int) - d).toNat)
    have hscale : ∀ wl : Workload,
        reconcileScale env wl podList podTemplateHash d podList.length =
          (.ok (Result.zero, none), wl,
            ((env.sortSlice creationBefore podList).take
              ((podList.length : Int) - d).toNat).map (fun pod => Call.Delete pod none)) := by
      intro wl
      have hnlt : ¬ ((podList.length : Int) < d) := by omega
      have hnpanic : ¬ ((podList.length : Int) - d < 0 ∨
          ((env.sortSlice creationBefore podList).length : Int) < (podList.length : Int) - d) := by
        rw [hslen]
        omega
      simp only [reconcileScale, hk]
      rw [if_neg hnlt, if_pos hlt, if_neg hnpanic]
      simp [scaleDownWorkers, hrun]
    refine ⟨(env.sortSlice creationBefore podList).drop ((podList.length : Int) - d).toNat, ?_⟩
    have htrace : deletedPods (reconcileScaling env workload podList podTemplateHash).2.2 =
          (env.sortSlice creationBefore podList).take ((podList.length : Int) - d).toNat ∧
        countAlloc (reconcileScaling env workload podList podTemplateHash).2.2 = 0 ∧
        countCreate (reconcileScaling env workload podList podTemplateHash).2.2 = 0 ∧
        (reconcileScaling env workload podList podTemplateHash).1 = .ok (Result.zero, none) := by
      by_cases hs : workload.Status.Replicas = (podList.length : Int)
      · have : reconcileScaling env workload podList podTemplateHash =
            reconcileScale env workload podList podTemplateHash d podList.length := by
          simp [reconcileScaling, hempty, hlen, hs, hd]
        rw [this, hscale]
        exact ⟨t1, t2, t3, rfl⟩
      · have : reconcileScaling env workload podList podTemplateHash =
            (.ok (Result.zero, none),
              { workload with Status := { workload.Status with Replicas := podList.length } },
              Call.StatusUpdate
                { workload with Status := { workload.Status with Replicas := podList.length } }
                none ::
              ((env.sortSlice creationBefore podList).take
                ((podList.length : Int) - d).toNat).map (fun pod => Call.Delete pod none)) := by
          simp [reconcileScaling, hempty, hlen, hs, hd, hstatus, hscale]
        rw [this]
        refine ⟨?_, ?_, ?_, rfl⟩
        · simp only [deletedPods] at t1 ⊢
          simpa using t1
        · simp only [countAlloc] at t2 ⊢
          simpa using t2
        · simp only [countCreate] at t3 ⊢
          simpa using t3
    obtain ⟨hdeleted, hal, hcr, hres⟩ := htrace
    rw [hdeleted]
    refine ⟨?_, ?_, ?_, hal, hcr, hres⟩
    · rw [List.take_append_drop]
      exact hperm
    · rw [List.length_take, hslen]
      omega
    · intro p hp q hq
      have := pairwise_take_drop creationBefore _ _ hsorted p hp q hq
      simpa [creationBefore] using this
  · intro heq
    have hscale : ∀ wl : Workload,
        reconcileScale env wl podList podTemplateHash d podList.length =
          (.ok (Result.zero, none), wl, []) := by
      intro wl
      simp [reconcileScale, heq]
    by_cases hs : workload.Status.Replicas = (podList.length : Int)
    · have : reconcileScaling env workload podList podTemplateHash =
          reconcileScale env workload podList podTemplateHash d podList.length := by
        simp [reconcileScaling, hempty, hlen, hs, hd]
      rw [this, hscale]
      exact ⟨rfl, rfl, rfl, rfl⟩
    · cases hu : env.StatusUpdate
          { workload with Status := { workload.Status with Replicas := podList.length } } with
      | some err =>
        have : reconcileScaling env workload podList podTemplateHash =
            (.ok (Result.zero, some ("update status: " ++ err)),
              { workload with Status := { workload.Status with Replicas := podList.length } },
              [Call.StatusUpdate
                { workload with Status := { workload.Status with Replicas := podList.length } }
                (some err)]) := by
          simp [reconcileScaling, hempty, hlen, hs, hu]
        rw [this]
        exact ⟨rfl, rfl, rfl, rfl⟩
      | none =>
        have : reconcileScaling env workload podList podTemplateHash =
            (.ok (Result.zero, none),
              { workload with Status := { workload.Status with Replicas := podList.length } },
              [Call.StatusUpdate
                { workload with Status := { workload.Status with Replicas := podList.length } }
                none]) := by
          simp [reconcileScaling, hempty, hlen, hs, hd, hu, hscale]
        rw [this]
        exact ⟨rfl, rfl, rfl, rfl⟩

/-- Witness of C6: three pods, one wanted; the two oldest go. -/
theorem reconcileScaling_scale_down_witness :
    deletedPods (reconcileScaling sampleEnv sampleWorkloadOne sampleThreePods "h").2.2 =
      [samplePodAt "b" 10, samplePodAt "c" 20] ∧
    ∃ kept : List Pod,
      (deletedPods (reconcileScaling sampleEnv sampleWorkloadOne sampleThreePods "h").2.2 ++
        kept).Perm sampleThreePods ∧
      ((deletedPods
        (reconcileScaling sampleEnv sampleWorkloadOne sampleThreePods "h").2.2).length : Int) =
        sampleThreePods.length - 1 ∧
      (∀ p ∈ deletedPods (reconcileScaling sampleEnv sampleWorkloadOne sampleThreePods "h").2.2,
        ∀ q ∈ kept, p.CreationTimestamp ≤ q.CreationTimestamp) ∧
      countAlloc (reconcileScaling sampleEnv sampleWorkloadOne sampleThreePods "h").2.2 = 0 ∧
      countCreate (reconcileScaling sampleEnv sampleWorkloadOne sampleThreePods "h").2.2 = 0 ∧
      (reconcileScaling sampleEnv sampleWorkloadOne sampleThreePods "h").1 =
        .ok (Result.zero, none) :=
  ⟨by rfl,
   (reconcileScaling_scale_down sampleEnv sampleWorkloadOne sampleThreePods "h" 1
      (by decide) rfl (by decide)).1 (by decide) (by decide) (fun _ => rfl) (fun _ _ _ => rfl)
      (List.perm_insertionSort _ _) (by decide)⟩

/-- C6 as stated fails: two pods at the current hash, one wanted, every delete succeeds, but
`Status.Replicas` is 0 and its status write is refused: `reconcileScaling` returns the error
and deletes nothing, not `2 - 1` pods. -/
theorem reconcileScaling_scale_down_counterexample :
    (∀ pod ∈ [samplePodAt "a" 1, samplePodAt "b" 2],
      mapIndex pod.Labels LabelKeyPodTemplateHash = "h") ∧
    sampleWorkloadOne.Spec.Replicas.getD 1 = 1 ∧
    (∀ n pod, sampleEnvStatusFails.Delete n pod = none) ∧
    (reconcileScaling sampleEnvStatusFails sampleWorkloadOne
      [samplePodAt "a" 1, samplePodAt "b" 2] "h").1 =
      .ok (Result.zero, some "update status: conflict") ∧
    deletedPods (reconcileScaling sampleEnvStatusFails sampleWorkloadOne
      [samplePodAt "a" 1, samplePodAt "b" 2] "h").2.2 = [] ∧
    (deletedPods (reconcileScaling sampleEnvStatusFails sampleWorkloadOne
      [samplePodAt "a" 1, samplePodAt "b" 2] "h").2.2).length ≠ 2 - 1 := by
  refine ⟨by decide, rfl, fun _ _ => rfl, by rfl, by rfl, ?_⟩
  have h : deletedPods (reconcileScaling sampleEnvStatusFails sampleWorkloadOne
      [samplePodAt "a" 1, samplePodAt "b" 2] "h").2.2 = [] := by rfl
  rw [h]
  decide

/-! ## updateStatus -/

/-- Semantic equality of maps is reflexive. -/
theorem mapDeepEqual_refl (m : Option StringMap) : mapDeepEqual m m = true := by
  simp [mapDeepEqual]

/-- Semantic equality of worker status lists is reflexive. -/
theorem workerStatusesDeepEqual_refl (l : List WorkerStatus) :
    workerStatusesDeepEqual l l = true := by
  induction l with
  | nil => rfl
  | cons a rest ih => simp [workerStatusesDeepEqual, workerStatusDeepEqual, mapDeepEqual_refl, ih]

/-- The tail of `updateStatus` always returns, and leaves the workload with the phase, the
ready count and the condition it was given, whether it writes or not. -/
theorem writeStatus_status (env : Env) (workload : Workload) (agg : Aggregate) (phase : String)
    (readyCondition : Condition) (events : List Call) :
    (∃ err, (writeStatus env workload agg phase readyCondition events).1 = .ok err) ∧
    (writeStatus env workload agg phase readyCondition events).2.1.Status.Phase = phase ∧
    (writeStatus env workload agg phase readyCondition events).2.1.Status.ReadyReplicas =
      agg.readyReplicas ∧
    (writeStatus env workload agg phase readyCondition events).2.1.Status.Conditions =
      [readyCondition] ∧
    workerStatusesDeepEqual
      (writeStatus env workload agg phase readyCondition events).2.1.Status.WorkerStatuses
      agg.workerStatuses = true ∧
    (writeStatus env workload agg phase readyCondition events).2.1.Spec = workload.Spec := by
  unfold writeStatus
  by_cases hc : (workload.Status.ReadyReplicas != agg.readyReplicas ||
      !workerStatusesDeepEqual workload.Status.WorkerStatuses agg.workerStatuses ||
      workload.Status.Phase != phase ||
      !conditionsDeepEqual workload.Status.Conditions [readyCondition]) = true
  · simp only [hc, if_true]
    split <;> simp [workerStatusesDeepEqual_refl]
  · simp only [hc]
    simp only [Bool.not_eq_true, Bool.or_eq_false_iff, bne_eq_false_iff_eq,
      Bool.not_eq_eq_eq_not, Bool.not_false, conditionsDeepEqual, decide_eq_true_eq] at hc
    obtain ⟨⟨⟨h1, h2⟩, h3⟩, h4⟩ := hc
    simp [h1, h2, h3, h4]

/-- C8 as stated fails: one replica wanted, one pod running and ready, one pod failed.
`ReadyReplicas` is 1 and `failedWorkers` is 1, and the phase computed is `Running`. -/
theorem updateStatus_running_counterexample :
    sampleWorkloadOne.Spec.Replicas = some 1 ∧
    (aggregate sampleEnv [sampleReadyPod, sampleFailedPod]).readyReplicas = 1 ∧
    (aggregate sampleEnv [sampleReadyPod, sampleFailedPod]).failedWorkers = 1 ∧
    sampleFailedPod.DeletionTimestamp = none ∧ sampleFailedPod.Status.Phase = PodFailed ∧
    (updateStatus sampleEnv 7 sampleWorkloadOne
      [sampleReadyPod, sampleFailedPod]).2.1.Status.Phase = TensorFusionWorkloadPhaseRunning ∧
    ¬ ((updateStatus sampleEnv 7 sampleWorkloadOne
        [sampleReadyPod, sampleFailedPod]).2.1.Status.Phase = TensorFusionWorkloadPhaseRunning ↔
      ((aggregate sampleEnv [sampleReadyPod, sampleFailedPod]).readyReplicas = 1 ∧
        (aggregate sampleEnv [sampleReadyPod, sampleFailedPod]).failedWorkers = 0)) := by
  have h1 : (aggregate sampleEnv [sampleReadyPod, sampleFailedPod]).failedWorkers = 1 := by rfl
  have h2 : (updateStatus sampleEnv 7 sampleWorkloadOne
      [sampleReadyPod, sampleFailedPod]).2.1.Status.Phase = TensorFusionWorkloadPhaseRunning := by
    rfl
  refine ⟨rfl, by rfl, h1, rfl, rfl, h2, ?_⟩
  rw [h1]
  intro h
  have := (h.1 h2).2
  omega

/-- C8, as the code has it: for a workload with `Spec.Replicas` set, `updateStatus` returns,
and the status it leaves has phase `Running` if and only if `ReadyReplicas` equals
`Spec.Replicas`, whether or not a worker failed. -/
theorem updateStatus_running_iff (env : Env) (now : Time) (workload : Workload)
    (pods : List Pod) (replicas : Int) (h : workload.Spec.Replicas = some replicas) :
    (∃ err, (updateStatus env now workload pods).1 = .ok err) ∧
    (updateStatus env now workload pods).2.1.Status.ReadyReplicas =
      (aggregate env pods).readyReplicas ∧
    ((updateStatus env now workload pods).2.1.Status.Phase = TensorFusionWorkloadPhaseRunning ↔
      (updateStatus env now workload pods).2.1.Status.ReadyReplicas = replicas) := by
  unfold updateStatus
  simp only [h]
  by_cases h1 : some replicas = some (aggregate env pods).readyReplicas
  · simp only [h1, if_true]
    have hw := writeStatus_status env workload (aggregate env pods)
      TensorFusionWorkloadPhaseRunning
      { Type_ := ConditionStatusTypeReady, Status := ConditionTrue, ObservedGeneration := 0,
        LastTransitionTime := now, Reason := "WorkloadReady",
        Message := "All workers are running" } []
    obtain ⟨he, hp, hr, -, -, -⟩ := hw
    refine ⟨he, hr, ?_⟩
    rw [hp, hr]
    simp only [true_iff]
    exact (Option.some.inj h1).symm
  · have hne : ¬ (aggregate env pods).readyReplicas = replicas := fun hx => h1 (by rw [hx])
    simp only [h1, if_false]
    by_cases h2 : (aggregate env pods).failedWorkers > 0
    · simp only [h2, if_true]
      have hw := writeStatus_status env workload (aggregate env pods)
        TensorFusionWorkloadPhaseFailed
        { Type_ := ConditionStatusTypeReady, Status := ConditionFalse, ObservedGeneration := 0,
          LastTransitionTime := now, Reason := "WorkerFailed",
          Message := "Failed workers: " ++ toString (aggregate env pods).failedWorkers }
        [Call.Eventf EventTypeWarning "WorkerFailed"
          ("Failed workers: " ++ toString (aggregate env pods).failedWorkers)]
      obtain ⟨he, hp, hr, -, -, -⟩ := hw
      refine ⟨he, hr, ?_⟩
      rw [hp, hr]
      simp only [hne, iff_false]
      decide
    · simp only [h2, if_false]
      have hw := writeStatus_status env workload (aggregate env pods)
        TensorFusionWorkloadPhasePending
        { Type_ := ConditionStatusTypeReady, Status := ConditionFalse, ObservedGeneration := 0,
          LastTransitionTime := now, Reason := "WaitingForWorkers",
          Message := "Ready replicas: " ++ toString (aggregate env pods).readyReplicas ++ "/" ++
            toString replicas } []
      obtain ⟨he, hp, hr, -, -, -⟩ := hw
      refine ⟨he, hr, ?_⟩
      rw [hp, hr]
      simp only [hne, iff_false]
      decide

/-- Witness of C8: with one replica wanted and one ready pod, the phase is `Running`. -/
theorem updateStatus_running_iff_witness :
    sampleWorkloadOne.Spec.Replicas = some 1 ∧
    ((updateStatus sampleEnv 7 sampleWorkloadOne [sampleReadyPod]).2.1.Status.Phase =
        TensorFusionWorkloadPhaseRunning ↔
      (updateStatus sampleEnv 7 sampleWorkloadOne [sampleReadyPod]).2.1.Status.ReadyReplicas
        = 1) :=
  ⟨rfl, (updateStatus_running_iff sampleEnv 7 sampleWorkloadOne [sampleReadyPod] 1 rfl).2.2⟩

/-- The `switch` of `updateStatus` chooses the phase the specification words, whatever the
counters are. -/
theorem workerPhaseOf_fst (env : Env) (pod : Pod) (readyReplicas failedWorkers : Int) :
    (workerPhaseOf env pod readyReplicas failedWorkers).1 = workerPhaseSpec env pod := by
  unfold workerPhaseOf workerPhaseSpec
  have e1 : PodPending ≠ PodRunning := by decide
  have e2 : PodPending ≠ PodFailed := by decide
  have e3 : PodRunning ≠ PodFailed := by decide
  have e4 : PodRunning ≠ PodPending := by decide
  have e5 : PodFailed ≠ PodPending := by decide
  have e6 : PodFailed ≠ PodRunning := by decide
  by_cases h1 : pod.Status.Phase = PodPending
  · simp [h1, e1, e2]
  · by_cases h2 : pod.Status.Phase = PodRunning
    · by_cases h4 : env.IsPodConditionTrue pod.Status.Conditions PodReady = true
      · simp [h2, h4, e4]
      · simp [h2, h4, e3, e4]
    · by_cases h3 : pod.Status.Phase = PodFailed
      · simp [h3, e5, e6]
      · simp [h1, h2, h3]

/-- The pod loop of `updateStatus` appends one worker status per pod that has no deletion
timestamp and whose port is resolved, in list order. -/
theorem aggregate_fold (env : Env) (pods : List Pod) (acc : Aggregate) :
    (pods.foldl (aggregateStep env) acc).workerStatuses =
      acc.workerStatuses ++ (pods.filter (reportsWorker env)).map (workerStatusSpec env) := by
  induction pods generalizing acc with
  | nil => simp
  | cons pod rest ih =>
    rw [List.foldl_cons, ih]
    cases hd : pod.DeletionTimestamp with
    | some t => simp [aggregateStep, reportsWorker, hd]
    | none =>
      cases hp : env.WorkerPort pod with
      | error e => simp [aggregateStep, reportsWorker, hd, hp]
      | ok port =>
        simp [aggregateStep, reportsWorker, hd, hp, workerStatusSpec, workerPhaseOf_fst]

/-- A status write of the tail of `updateStatus` carries the worker statuses it was given. -/
theorem writeStatus_calls (env : Env) (workload : Workload) (agg : Aggregate) (phase : String)
    (readyCondition : Condition) (events : List Call)
    (hev : ∀ wl err, Call.StatusUpdate wl err ∉ events) :
    ∀ wl err, Call.StatusUpdate wl err ∈
        (writeStatus env workload agg phase readyCondition events).2.2 →
      wl.Status.WorkerStatuses = agg.workerStatuses := by
  intro wl err hmem
  simp only [writeStatus] at hmem
  split_ifs at hmem
  · split at hmem
    · simp only [List.mem_append, List.mem_singleton] at hmem
      rcases hmem with hm | hm
      · exact absurd hm (hev wl err)
      · cases hm
        rfl
    · simp only [List.mem_append, List.mem_singleton] at hmem
      rcases hmem with hm | hm
      · exact absurd hm (hev wl err)
      · cases hm
        rfl
  · exact absurd hmem (hev wl err)

/-- C9 as stated fails: a pod without a deletion timestamp whose port `WorkerPort` cannot
resolve gets no worker status. -/
theorem updateStatus_workerStatuses_counterexample :
    sampleReadyPod.DeletionTimestamp = none ∧
    (aggregate sampleEnvNoPort [sampleReadyPod]).workerStatuses = [] ∧
    (updateStatus sampleEnvNoPort 7 sampleWorkloadOne
      [sampleReadyPod]).2.1.Status.WorkerStatuses = [] ∧
    (aggregate sampleEnvNoPort [sampleReadyPod]).workerStatuses.length ≠
      ([sampleReadyPod].filter (fun pod => pod.DeletionTimestamp.isNone)).length := by
  refine ⟨rfl, by rfl, by rfl, ?_⟩
  have h : (aggregate sampleEnvNoPort [sampleReadyPod]).workerStatuses = [] := by rfl
  rw [h]
  decide

/-- C9, as the code has it: the worker statuses `updateStatus` computes, and writes when it
writes the status, have one entry per pod that has no deletion timestamp and whose port
`WorkerPort` resolves, in list order, and none for any other pod; the name, IP and resource
version of the entry are the pod's, and its phase is `Running` for a running pod whose Ready
condition is true, `Failed` for a failed pod, `Pending` in every other case. -/
theorem updateStatus_workerStatuses (env : Env) (now : Time) (workload : Workload)
    (pods : List Pod) :
    (aggregate env pods).workerStatuses =
      (pods.filter (reportsWorker env)).map (workerStatusSpec env) ∧
    (∀ wl err, Call.StatusUpdate wl err ∈ (updateStatus env now workload pods).2.2 →
      wl.Status.WorkerStatuses = (pods.filter (reportsWorker env)).map (workerStatusSpec env)) := by
  have hagg : (aggregate env pods).workerStatuses =
      (pods.filter (reportsWorker env)).map (workerStatusSpec env) := by
    unfold aggregate
    rw [aggregate_fold]
    rfl
  refine ⟨hagg, ?_⟩
  intro wl err hmem
  rw [← hagg]
  unfold updateStatus at hmem
  simp only at hmem
  split_ifs at hmem
  · exact writeStatus_calls env workload _ _ _ [] (by simp) wl err hmem
  · exact writeStatus_calls env workload _ _ _ _ (by simp) wl err hmem
  · split at hmem
    · simp at hmem
    · exact writeStatus_calls env workload _ _ _ [] (by simp) wl err hmem

/-- C10, evaluated: one replica wanted, no pods. The first run, at clock 100, writes the
status. The second run, over the same pods and from the status the first run left, at clock
200, writes the status again: the two Ready conditions differ in `LastTransitionTime` only.
At the same clock 100 the second run writes nothing. -/
theorem updateStatus_second_run_writes :
    countStatusUpdate (updateStatus sampleEnv 100 sampleWorkloadOne []).2.2 = 1 ∧
    countStatusUpdate
      (updateStatus sampleEnv 200 (updateStatus sampleEnv 100 sampleWorkloadOne []).2.1 []).2.2
      = 1 ∧
    (updateStatus sampleEnv 100 sampleWorkloadOne []).2.1.Status.Conditions =
      [{ Type_ := "Ready", Status := "False", ObservedGeneration := 0, LastTransitionTime := 100,
         Reason := "WaitingForWorkers", Message := "Ready replicas: 0/1" }] ∧
    (updateStatus sampleEnv 200
      (updateStatus sampleEnv 100 sampleWorkloadOne []).2.1 []).2.1.Status.Conditions =
      [{ Type_ := "Ready", Status := "False", ObservedGeneration := 0, LastTransitionTime := 200,
         Reason := "WaitingForWorkers", Message := "Ready replicas: 0/1" }] ∧
    countStatusUpdate
      (updateStatus sampleEnv 100 (updateStatus sampleEnv 100 sampleWorkloadOne []).2.1 []).2.2
      = 0 := by
  refine ⟨by rfl, by rfl, by rfl, by rfl, by rfl⟩

/-- Witness of C9: a ready pod, a failed pod and a terminating pod give two entries. -/
theorem updateStatus_workerStatuses_witness :
    (aggregate sampleEnv [sampleReadyPod, sampleTerminatingPod, sampleFailedPod]).workerStatuses =
      [{ WorkerPhase := "Running", WorkerName := "a", WorkerIp := "10.0.0.1", WorkerPort := 8000,
         NodeSelector := none, ResourceVersion := "" },
       { WorkerPhase := "Failed", WorkerName := "b", WorkerIp := "10.0.0.2", WorkerPort := 8000,
         NodeSelector := none, ResourceVersion := "" }] :=
  (updateStatus_workerStatuses sampleEnv 7 sampleWorkloadOne
    [sampleReadyPod, sampleTerminatingPod, sampleFailedPod]).1

/-- With `Spec.Replicas` set, `updateStatus` leaves one condition, stamped with the clock
reading of the run, and does not touch the spec. -/
theorem updateStatus_conditions (env : Env) (now : Time) (workload : Workload)
    (pods : List Pod) (replicas : Int) (h : workload.Spec.Replicas = some replicas) :
    (∃ c, (updateStatus env now workload pods).2.1.Status.Conditions = [c] ∧
      c.LastTransitionTime = now) ∧
    (updateStatus env now workload pods).2.1.Spec = workload.Spec := by
  unfold updateStatus
  simp only [h]
  split_ifs
  · obtain ⟨-, -, -, hc, -, hs⟩ := writeStatus_status env workload (aggregate env pods)
      TensorFusionWorkloadPhaseRunning
      { Type_ := ConditionStatusTypeReady, Status := ConditionTrue, ObservedGeneration := 0,
        LastTransitionTime := now, Reason := "WorkloadReady",
        Message := "All workers are running" } []
    exact ⟨⟨_, hc, rfl⟩, hs⟩
  · obtain ⟨-, -, -, hc, -, hs⟩ := writeStatus_status env workload (aggregate env pods)
      TensorFusionWorkloadPhaseFailed
      { Type_ := ConditionStatusTypeReady, Status := ConditionFalse, ObservedGeneration := 0,
        LastTransitionTime := now, Reason := "WorkerFailed",
        Message := "Failed workers: " ++ toString (aggregate env pods).failedWorkers }
      [Call.Eventf EventTypeWarning "WorkerFailed"
        ("Failed workers: " ++ toString (aggregate env pods).failedWorkers)]
    exact ⟨⟨_, hc, rfl⟩, hs⟩
  · obtain ⟨-, -, -, hc, -, hs⟩ := writeStatus_status env workload (aggregate env pods)
      TensorFusionWorkloadPhasePending
      { Type_ := ConditionStatusTypeReady, Status := ConditionFalse, ObservedGeneration := 0,
        LastTransitionTime := now, Reason := "WaitingForWorkers",
        Message := "Ready replicas: " ++ toString (aggregate env pods).readyReplicas ++ "/" ++
          toString replicas } []
    exact ⟨⟨_, hc, rfl⟩, hs⟩

/-- The tail of `updateStatus` writes the status when the condition it holds differs from the
stored one in its time. -/
theorem writeStatus_writes (env : Env) (workload : Workload) (agg : Aggregate) (phase : String)
    (readyCondition c : Condition) (events : List Call)
    (hc : workload.Status.Conditions = [c])
    (ht : c.LastTransitionTime ≠ readyCondition.LastTransitionTime) :
    countStatusUpdate (writeStatus env workload agg phase readyCondition events).2.2 =
      countStatusUpdate events + 1 := by
  have hne : conditionsDeepEqual workload.Status.Conditions [readyCondition] = false := by
    rw [hc]
    simp only [conditionsDeepEqual, decide_eq_false_iff_not]
    intro heq
    have : c = readyCondition := by simpa using heq
    exact ht (by rw [this])
  simp only [writeStatus, hne, Bool.not_false, Bool.or_true, if_true]
  split <;> simp [countStatusUpdate, List.countP_append]

/-- Every second run of `updateStatus` over the same pods writes the status again when the
clock has moved, for every workload with `Spec.Replicas` set. -/
theorem updateStatus_rewrites_on_new_clock (env : Env) (t1 t2 : Time) (workload : Workload)
    (pods : List Pod) (replicas : Int) (h : workload.Spec.Replicas = some replicas)
    (ht : t1 ≠ t2) :
    countStatusUpdate
      (updateStatus env t2 (updateStatus env t1 workload pods).2.1 pods).2.2 = 1 := by
  obtain ⟨⟨c, hc, hct⟩, hs⟩ := updateStatus_conditions env t1 workload pods replicas h
  generalize (updateStatus env t1 workload pods).2.1 = w1 at hc hs
  have h1 : w1.Spec.Replicas = some replicas := by rw [hs, h]
  unfold updateStatus
  simp only [h1]
  split_ifs
  · rw [writeStatus_writes env w1 _ _ _ c [] hc (by rw [hct]; exact ht)]
    rfl
  · rw [writeStatus_writes env w1 _ _ _ c _ hc (by rw [hct]; exact ht)]
    rfl
  · rw [writeStatus_writes env w1 _ _ _ c [] hc (by rw [hct]; exact ht)]
    rfl

/-! ## What a created pod carries -/

/-- With `Spec.Replicas` unset, `updateStatus` never takes the `Running` branch: it panics on
the nil dereference of the `WaitingForWorkers` message when no worker failed, and it returns
with phase `Failed` when one did, whatever the number of ready workers. -/
theorem updateStatus_nil_replicas (env : Env) (now : Time) (workload : Workload)
    (pods : List Pod) (h : workload.Spec.Replicas = none) :
    ((aggregate env pods).failedWorkers ≤ 0 →
      (updateStatus env now workload pods).1 =
        .panic "invalid memory address or nil pointer dereference") ∧
    ((aggregate env pods).failedWorkers > 0 →
      (∃ err, (updateStatus env now workload pods).1 = .ok err) ∧
      (updateStatus env now workload pods).2.1.Status.Phase =
        TensorFusionWorkloadPhaseFailed) := by
  constructor
  · intro hf
    have hnot : ¬ (aggregate env pods).failedWorkers > 0 := by omega
    simp [updateStatus, h, hnot]
  · intro hf
    have hw := writeStatus_status env workload (aggregate env pods)
      TensorFusionWorkloadPhaseFailed
      { Type_ := ConditionStatusTypeReady, Status := ConditionFalse, ObservedGeneration := 0,
        LastTransitionTime := now, Reason := "WorkerFailed",
        Message := "Failed workers: " ++ toString (aggregate env pods).failedWorkers }
      [Call.Eventf EventTypeWarning "WorkerFailed"
        ("Failed workers: " ++ toString (aggregate env pods).failedWorkers)]
    obtain ⟨he, hp, -, -, -, -⟩ := hw
    unfold updateStatus
    simp only [h, hf, if_true]
    exact ⟨he, hp⟩

/-- C12, evaluated: `Spec.Replicas` is unset. With no pods `updateStatus` panics on the nil
dereference, where the same workload with `Spec.Replicas = 1` returns with phase `Pending`
and Ready condition `False`; with one ready pod it panics, where `Spec.Replicas = 1` gives
`Running`; with one ready and one failed pod it gives `Failed`, where `Spec.Replicas = 1`
gives `Running`. `reconcileScaling` does take the unset count as 1: with no pods it creates
one worker. -/
theorem updateStatus_nil_replicas_panics :
    sampleWorkloadNil.Spec.Replicas = none ∧
    (updateStatus sampleEnv 7 sampleWorkloadNil []).1 =
      .panic "invalid memory address or nil pointer dereference" ∧
    (updateStatus sampleEnv 7 sampleWorkloadOne []).1 = .ok none ∧
    (updateStatus sampleEnv 7 sampleWorkloadOne []).2.1.Status.Phase =
      TensorFusionWorkloadPhasePending ∧
    ((updateStatus sampleEnv 7 sampleWorkloadOne []).2.1.Status.Conditions.map
      (fun c => c.Status)) = [ConditionFalse] ∧
    (updateStatus sampleEnv 7 sampleWorkloadNil [sampleReadyPod]).1 =
      .panic "invalid memory address or nil pointer dereference" ∧
    (updateStatus sampleEnv 7 sampleWorkloadOne [sampleReadyPod]).2.1.Status.Phase =
      TensorFusionWorkloadPhaseRunning ∧
    (updateStatus sampleEnv 7 sampleWorkloadNil
      [sampleReadyPod, sampleFailedPod]).2.1.Status.Phase = TensorFusionWorkloadPhaseFailed ∧
    (updateStatus sampleEnv 7 sampleWorkloadOne
      [sampleReadyPod, sampleFailedPod]).2.1.Status.Phase = TensorFusionWorkloadPhaseRunning ∧
    (createdPods (reconcileScaling sampleEnv sampleWorkloadNil [] "h").2.2).length = 1 ∧
    (createdPods (reconcileScaling sampleEnv sampleWorkloadOne [] "h").2.2).length = 1 := by
  refine ⟨rfl, by rfl, by rfl, by rfl, by rfl, by rfl, by rfl, by rfl, by rfl, by rfl, by rfl⟩

end TensorFusion
